import Mathlib

/-!
Verification of the aggregate-query subsystem of the trade reporting API.

Shallow embedding of

* `models/models.go`     : the request and result records,
* `utils/quer_builder.go`: `BuildAggregateQuery`, `BuildScanTargets`, `contains`,
* `handlers/trade.go`    : `validateAggregateRequest` and the part of
  `AggregateTradeData` that prepares the statements and the pagination block.

Go's `int` and `int64` are 64-bit two's-complement integers; they are modelled
by `Int`, with `wrap64` applied wherever the Go operation can wrap around.
-/

namespace TradeApi

/-! ## Machine integers -/

/-- Reduction of an integer to the signed 64-bit range (two's complement). -/
def wrap64 (x : Int) : Int := (x + 2 ^ 63) % 2 ^ 64 - 2 ^ 63

/-- The values a Go `int` / `int64` can hold. -/
def inInt64 (x : Int) : Prop := -(2 ^ 63) ≤ x ∧ x < 2 ^ 63

instance (x : Int) : Decidable (inInt64 x) := by
  unfold inInt64; infer_instance

/-- Go `a - b` on `int`. -/
def intSub (a b : Int) : Int := wrap64 (a - b)

/-- Go `a * b` on `int`. -/
def intMul (a b : Int) : Int := wrap64 (a * b)

/-- Go `a + b` on `int`. -/
def intAdd (a b : Int) : Int := wrap64 (a + b)

/-- Go `a / b` on `int`: truncated division; `none` is the run-time panic on a
zero divisor. -/
def intDiv (a b : Int) : Option Int :=
  if b = 0 then none else some (wrap64 (Int.tdiv a b))

/-- Go `a % b` on `int`: remainder of truncated division; `none` is the run-time
panic on a zero divisor. -/
def intMod (a b : Int) : Option Int :=
  if b = 0 then none else some (wrap64 (Int.tmod a b))

/-! ## models/models.go -/

structure DateRange where
  StartYear : Int
  EndYear : Int
deriving DecidableEq

structure Filters where
  ProductIDs : List Int
  CountryIDs : List Int
  PortIDs : List Int
  PortTypes : List String
deriving DecidableEq

structure Pagination where
  Page : Int
  Limit : Int
deriving DecidableEq

structure Sorting where
  SortBy : String
  SortOrder : String
deriving DecidableEq

structure AggregateRequest where
  DateRange : DateRange
  TradeTypes : List String
  GroupBy : List String
  Filters : Filters
  Pagination : Pagination
  Sorting : Sorting
deriving DecidableEq

/-- The fields of `models.AggregateResult`; a scan target `&result.F` is
represented by the name of the field `F` it points to. -/
inductive ResultField
  | Year
  | ProductID
  | ProductDescEN
  | ProductDescAR
  | CountryID
  | CountryNameEN
  | CountryNameAR
  | PortID
  | PortNameEN
  | PortNameAR
  | TradeType
  | TotalValue
deriving DecidableEq

/-- The dynamically typed values (`interface{}`) that are put in the argument
list of a statement. -/
inductive Arg
  | int (v : Int)
  | strings (v : List String)
  | int64s (v : List Int)
deriving DecidableEq

deriving instance DecidableEq for Except

/-! ## utils/quer_builder.go -/

/-- Embedding of `contains` (quer_builder.go 178-185). -/
def contains : List String → String → Bool
  | [], _ => false
  | s :: rest, item => if s = item then true else contains rest item

/-- Embedding of `strings.ToUpper` on ASCII text: the letters `a`..`z` are mapped
to `A`..`Z`. Runes outside ASCII, which Go maps through its Unicode tables, are
left as they are. -/
def ToUpper (s : String) : String := String.mk (s.data.map Char.toUpper)

/-- Embedding of `strings.Join(elems, sep)`. -/
def Join (elems : List String) (sep : String) : String := sep.intercalate elems

/-- Formatting of an `int` by the verb `%d`. -/
def fmtD (n : Nat) : String := Nat.repr n

/-- The local variables of `BuildAggregateQuery`. -/
structure Locals where
  args : List Arg
  argCount : Nat
  factTable : String
  dimensionJoins : List String
  selectFields : List String
  groupByFields : List String
  whereClauses : List String
deriving DecidableEq

/-- The value of `needsProduct` (quer_builder.go 15). -/
def needsProduct (req : AggregateRequest) : Bool :=
  contains req.GroupBy "product" || decide (req.Filters.ProductIDs.length > 0)

/-- The value of `needsCountry` (quer_builder.go 16). -/
def needsCountry (req : AggregateRequest) : Bool :=
  contains req.GroupBy "country" || decide (req.Filters.CountryIDs.length > 0)

/-- The message of the panic raised at quer_builder.go 19. -/
def conflictMessage : String :=
  "Cannot query both products and countries in the same request due to data structure"

/-- Lines 22-47 of `BuildAggregateQuery`: choice of the fact table and the
product or country projection. -/
def stepFactTable (req : AggregateRequest) (s : Locals) : Locals :=
  if needsProduct req then
    let s := { s with factTable := "fact_trade_by_product_port" }
    if contains req.GroupBy "product" then
      { s with
        dimensionJoins := s.dimensionJoins ++ ["JOIN dim_product p ON f.product_id = p.product_id"]
        selectFields := s.selectFields ++ ["p.product_id", "p.product_desc_en", "p.product_desc_ar"]
        groupByFields := s.groupByFields ++ ["p.product_id", "p.product_desc_en", "p.product_desc_ar"] }
    else s
  else if needsCountry req then
    let s := { s with factTable := "fact_trade_by_country_port" }
    if contains req.GroupBy "country" then
      { s with
        dimensionJoins := s.dimensionJoins ++ ["JOIN dim_country c ON f.country_id = c.country_id"]
        selectFields := s.selectFields ++ ["c.country_id", "c.country_name_en", "c.country_name_ar"]
        groupByFields := s.groupByFields ++ ["c.country_id", "c.country_name_en", "c.country_name_ar"] }
    else s
  else
    { s with factTable := "fact_trade_by_product_port" }

/-- Lines 49-56 of `BuildAggregateQuery`: the port join and projection. -/
def stepPort (req : AggregateRequest) (s : Locals) : Locals :=
  if contains req.GroupBy "port" || decide (req.Filters.PortTypes.length > 0)
      || decide (req.Filters.PortIDs.length > 0) then
    let s := { s with
      dimensionJoins := s.dimensionJoins ++ ["JOIN dim_port dp ON f.port_id = dp.port_id"] }
    if contains req.GroupBy "port" then
      { s with
        selectFields := s.selectFields ++ ["dp.port_id", "dp.port_name_en", "dp.port_name_ar"]
        groupByFields := s.groupByFields ++ ["dp.port_id", "dp.port_name_en", "dp.port_name_ar"] }
    else s
  else s

/-- Lines 58-71 of `BuildAggregateQuery`: year, trade_type and the aggregate. -/
def stepScalars (req : AggregateRequest) (s : Locals) : Locals :=
  let s := if contains req.GroupBy "year" then
      { s with selectFields := s.selectFields ++ ["f.year"]
               groupByFields := s.groupByFields ++ ["f.year"] }
    else s
  let s := if contains req.GroupBy "trade_type" then
      { s with selectFields := s.selectFields ++ ["f.trade_type"]
               groupByFields := s.groupByFields ++ ["f.trade_type"] }
    else s
  { s with selectFields := s.selectFields ++ ["SUM(f.value) as total_value"] }

/-- Lines 76-80 of `BuildAggregateQuery`: the date-range predicate. -/
def stepDateRange (req : AggregateRequest) (s : Locals) : Locals :=
  let s := { s with argCount := s.argCount + 1 }
  let s := { s with
    whereClauses := s.whereClauses ++
      ["f.year BETWEEN $" ++ fmtD s.argCount ++ " AND $" ++ fmtD (s.argCount + 1)] }
  let s := { s with
    args := s.args ++ [Arg.int req.DateRange.StartYear, Arg.int req.DateRange.EndYear] }
  { s with argCount := s.argCount + 1 }

/-- One optional set-membership predicate of lines 82-115: when `active`, the
counter is advanced, the predicate on `column` is appended with the new
placeholder and the value is appended to the arguments. -/
def stepFilter (active : Bool) (column : String) (value : Arg) (s : Locals) : Locals :=
  if active then
    let s := { s with argCount := s.argCount + 1 }
    let s := { s with
      whereClauses := s.whereClauses ++ [column ++ " = ANY($" ++ fmtD s.argCount ++ ")"] }
    { s with args := s.args ++ [value] }
  else s

/-- Lines 82-115 of `BuildAggregateQuery`: the five optional filters in source
order. -/
def stepFilters (req : AggregateRequest) (s : Locals) : Locals :=
  let s := stepFilter (decide (req.TradeTypes.length > 0)) "f.trade_type"
    (Arg.strings req.TradeTypes) s
  let s := stepFilter (decide (req.Filters.ProductIDs.length > 0)) "f.product_id"
    (Arg.int64s req.Filters.ProductIDs) s
  let s := stepFilter (decide (req.Filters.CountryIDs.length > 0)) "f.country_id"
    (Arg.int64s req.Filters.CountryIDs) s
  let s := stepFilter (decide (req.Filters.PortIDs.length > 0)) "f.port_id"
    (Arg.int64s req.Filters.PortIDs) s
  stepFilter (decide (req.Filters.PortTypes.length > 0)) "dp.port_type_en"
    (Arg.strings req.Filters.PortTypes) s

/-- The initial values of the locals (quer_builder.go 11-12, 22-25, 74). -/
def initLocals : Locals :=
  { args := [], argCount := 0, factTable := "", dimensionJoins := [],
    selectFields := [], groupByFields := [], whereClauses := [] }

/-- Lines 11-115 of `BuildAggregateQuery`: the locals at the point where the
two statements are formatted, or the panic message. -/
def buildLocals (req : AggregateRequest) : Except String Locals :=
  if needsProduct req && needsCountry req then
    Except.error conflictMessage
  else
    Except.ok (stepFilters req (stepDateRange req (stepScalars req
      (stepPort req (stepFactTable req initLocals)))))

/-- The data statement formatted at quer_builder.go 118-133. -/
def formatQuery (req : AggregateRequest) (s : Locals) : String :=
  "\n\t\tSELECT " ++ Join s.selectFields ", " ++
  "\n\t\tFROM " ++ s.factTable ++ " f" ++
  "\n\t\t" ++ Join s.dimensionJoins " " ++
  "\n\t\tWHERE " ++ Join s.whereClauses " AND " ++
  "\n\t\tGROUP BY " ++ Join s.groupByFields ", " ++
  "\n\t\tORDER BY " ++ req.Sorting.SortBy ++ " " ++ ToUpper req.Sorting.SortOrder ++
  "\n\t"

/-- The count statement formatted at quer_builder.go 136-150. -/
def formatCountQuery (s : Locals) : String :=
  "\n\t\tSELECT COUNT(*) FROM (" ++
  "\n\t\t\tSELECT " ++ Join s.groupByFields ", " ++
  "\n\t\t\tFROM " ++ s.factTable ++ " f" ++
  "\n\t\t\t" ++ Join s.dimensionJoins " " ++
  "\n\t\t\tWHERE " ++ Join s.whereClauses " AND " ++
  "\n\t\t\tGROUP BY " ++ Join s.groupByFields ", " ++
  "\n\t\t) as subquery" ++
  "\n\t"

/-- Embedding of `BuildAggregateQuery` (quer_builder.go 10-153): the triple
`(query, countQuery, args)`, or the panic message. -/
def BuildAggregateQuery (req : AggregateRequest) : Except String (String × String × List Arg) :=
  match buildLocals req with
  | Except.error msg => Except.error msg
  | Except.ok s => Except.ok (formatQuery req s, formatCountQuery s, s.args)

/-- Embedding of `BuildScanTargets` (quer_builder.go 155-176). -/
def BuildScanTargets (req : AggregateRequest) : List ResultField :=
  let targets : List ResultField := []
  let targets := if contains req.GroupBy "product" then
      targets ++ [ResultField.ProductID, ResultField.ProductDescEN, ResultField.ProductDescAR]
    else targets
  let targets := if contains req.GroupBy "country" then
      targets ++ [ResultField.CountryID, ResultField.CountryNameEN, ResultField.CountryNameAR]
    else targets
  let targets := if contains req.GroupBy "port" then
      targets ++ [ResultField.PortID, ResultField.PortNameEN, ResultField.PortNameAR]
    else targets
  let targets := if contains req.GroupBy "year" then
      targets ++ [ResultField.Year]
    else targets
  let targets := if contains req.GroupBy "trade_type" then
      targets ++ [ResultField.TradeType]
    else targets
  targets ++ [ResultField.TotalValue]

/-! ## handlers/trade.go -/

/-- Lookup in a Go `map[string]bool` given by its literal: the value stored
under the key, and `false` (the zero value) for a key that is absent. -/
def mapLookup : List (String × Bool) → String → Bool
  | [], _ => false
  | (k, v) :: rest, key => if key = k then v else mapLookup rest key

/-- The map literal `validGroupBy` (trade.go 207-209). -/
def validGroupBy : List (String × Bool) :=
  [("year", true), ("product", true), ("country", true), ("port", true), ("trade_type", true)]

/-- The map literal `validTradeTypes` (trade.go 216). -/
def validTradeTypes : List (String × Bool) :=
  [("Import", true), ("Export", true), ("Re-Export", true)]

/-- The map literal `validSortBy` (trade.go 223-226). -/
def validSortBy : List (String × Bool) :=
  [("total_value", true), ("year", true), ("product_desc_en", true),
   ("country_name_en", true), ("port_name_en", true), ("trade_type", true)]

/-- The loops of trade.go 210-214 and 217-221: the first entry that the map
does not accept, if there is one. -/
def firstInvalid (valid : List (String × Bool)) : List String → Option String
  | [] => none
  | g :: rest => if !mapLookup valid g then some g else firstInvalid valid rest

/-- The checks of `validateAggregateRequest` (trade.go 196-236) in source order:
`Except.ok ()` is the `nil` error, `Except.error msg` the error made by
`fmt.Errorf`. -/
def validateChecks (req : AggregateRequest) : Except String Unit :=
  if req.DateRange.StartYear = 0 ∨ req.DateRange.EndYear = 0 then
    Except.error "date_range.start_year and date_range.end_year are required"
  else if req.DateRange.StartYear > req.DateRange.EndYear then
    Except.error "start_year must be less than or equal to end_year"
  else if req.GroupBy.length = 0 then
    Except.error "group_by is required and must contain at least one field"
  else
    match firstInvalid validGroupBy req.GroupBy with
    | some g =>
      Except.error ("invalid group_by field: " ++ g ++
        ". Valid options: year, product, country, port, trade_type")
    | none =>
      match firstInvalid validTradeTypes req.TradeTypes with
      | some tt =>
        Except.error ("invalid trade_type: " ++ tt ++
          ". Valid options: Import, Export, Re-Export")
      | none =>
        if !mapLookup validSortBy req.Sorting.SortBy then
          Except.error ("invalid sort_by field: " ++ req.Sorting.SortBy)
        else if req.Sorting.SortOrder ≠ "asc" ∧ req.Sorting.SortOrder ≠ "desc" then
          Except.error ("invalid sort_order: " ++ req.Sorting.SortOrder ++
            ". Valid options: asc, desc")
        else
          Except.ok ()

/-- Embedding of `validateAggregateRequest` (trade.go 196-236). The function
receives a pointer to the request, so it is a state transformer on the request:
the first component is the returned error value, the second the request as the
function leaves it. The body contains no assignment through the pointer. -/
def validateAggregateRequest (req : AggregateRequest) : Except String Unit × AggregateRequest :=
  (validateChecks req, req)

/-- The block "Set defaults" of `AggregateTradeData` (trade.go 122-137). -/
def setDefaults (req : AggregateRequest) : AggregateRequest :=
  let req := if req.Pagination.Page = 0 then
      { req with Pagination := { req.Pagination with Page := 1 } }
    else req
  let req := if req.Pagination.Limit = 0 then
      { req with Pagination := { req.Pagination with Limit := 25 } }
    else req
  let req := if req.Pagination.Limit > 1000 then
      { req with Pagination := { req.Pagination with Limit := 1000 } }
    else req
  let req := if req.Sorting.SortBy = "" then
      { req with Sorting := { req.Sorting with SortBy := "total_value" } }
    else req
  if req.Sorting.SortOrder = "" then
    { req with Sorting := { req.Sorting with SortOrder := "desc" } }
  else req

/-- What `AggregateTradeData` hands to the database: the count statement with
its arguments (trade.go 150) and the data statement with its arguments
(trade.go 156-160), together with the request in effect. -/
structure Statements where
  req : AggregateRequest
  countQuery : String
  countArgs : List Arg
  query : String
  args : List Arg
  offset : Int
deriving DecidableEq

/-- The ways the statement preparation of `AggregateTradeData` can end. -/
inductive Outcome
  | badRequest (msg : String)
  | panicked (msg : String)
  | statements (s : Statements)
deriving DecidableEq

/-- Embedding of `AggregateTradeData` (trade.go 110-160) from the parsed body
to the two database calls: validation, defaults, `BuildAggregateQuery`, and the
pagination suffix of the data statement. The database itself is external; the
outcome lists the statements in the order they are issued. -/
def AggregateTradeData (body : AggregateRequest) : Outcome :=
  match validateAggregateRequest body with
  | (Except.error msg, _) => Outcome.badRequest msg
  | (Except.ok (), req) =>
    let req := setDefaults req
    match BuildAggregateQuery req with
    | Except.error msg => Outcome.panicked msg
    | Except.ok (query, countQuery, args) =>
      let offset := intMul (intSub req.Pagination.Page 1) req.Pagination.Limit
      let query := query ++ (" LIMIT $" ++ fmtD (args.length + 1) ++
        " OFFSET $" ++ fmtD (args.length + 2))
      Outcome.statements
        { req := req, countQuery := countQuery, countArgs := args, query := query,
          args := args ++ [Arg.int req.Pagination.Limit, Arg.int offset], offset := offset }

/-- The computation of `totalPages` in `AggregateTradeData` (trade.go 177-180);
`none` is the run-time panic of a division by zero. -/
def totalPages (totalCount limit : Int) : Option Int :=
  match intDiv totalCount limit, intMod totalCount limit with
  | some q, some r => if r > 0 then some (intAdd q 1) else some q
  | _, _ => none

/-! ## Reference points used in the statements -/

/-- The select expression that `rows.Scan` stores in a field of
`AggregateResult`: the column carrying the field's JSON name, and the aggregate
aliased `total_value` for `TotalValue`. -/
def selectColumn : ResultField → String
  | ResultField.Year => "f.year"
  | ResultField.ProductID => "p.product_id"
  | ResultField.ProductDescEN => "p.product_desc_en"
  | ResultField.ProductDescAR => "p.product_desc_ar"
  | ResultField.CountryID => "c.country_id"
  | ResultField.CountryNameEN => "c.country_name_en"
  | ResultField.CountryNameAR => "c.country_name_ar"
  | ResultField.PortID => "dp.port_id"
  | ResultField.PortNameEN => "dp.port_name_en"
  | ResultField.PortNameAR => "dp.port_name_ar"
  | ResultField.TradeType => "f.trade_type"
  | ResultField.TotalValue => "SUM(f.value) as total_value"

/-- A request used in the examples: years 2020 to 2022, grouped by year, no
filter, the first page of 25 rows, ordered by descending total value. -/
def sampleRequest : AggregateRequest :=
  { DateRange := { StartYear := 2020, EndYear := 2022 }
    TradeTypes := []
    GroupBy := ["year"]
    Filters := { ProductIDs := [], CountryIDs := [], PortIDs := [], PortTypes := [] }
    Pagination := { Page := 1, Limit := 25 }
    Sorting := { SortBy := "total_value", SortOrder := "desc" } }

/-- The data statement that `BuildAggregateQuery` returns for `sampleRequest`. -/
def sampleQuery : String :=
  "\n\t\tSELECT f.year, SUM(f.value) as total_value" ++
  "\n\t\tFROM fact_trade_by_product_port f" ++
  "\n\t\t" ++
  "\n\t\tWHERE f.year BETWEEN $1 AND $2" ++
  "\n\t\tGROUP BY f.year" ++
  "\n\t\tORDER BY total_value DESC" ++
  "\n\t"

/-- The count statement that `BuildAggregateQuery` returns for `sampleRequest`. -/
def sampleCountQuery : String :=
  "\n\t\tSELECT COUNT(*) FROM (" ++
  "\n\t\t\tSELECT f.year" ++
  "\n\t\t\tFROM fact_trade_by_product_port f" ++
  "\n\t\t\t" ++
  "\n\t\t\tWHERE f.year BETWEEN $1 AND $2" ++
  "\n\t\t\tGROUP BY f.year" ++
  "\n\t\t) as subquery" ++
  "\n\t"

/-- The triple that `BuildAggregateQuery` returns for `sampleRequest`. -/
def sampleTriple : String × String × List Arg :=
  (sampleQuery, sampleCountQuery, [Arg.int 2020, Arg.int 2022])

/-- The part of the locals from which the statement texts are formatted:
everything but the argument values. -/
def Locals.text (s : Locals) :
    Nat × String × List String × List String × List String × List String :=
  (s.argCount, s.factTable, s.dimensionJoins, s.selectFields, s.groupByFields, s.whereClauses)

/-- What the builder reads of a request apart from the argument values: which
of the five dimension names occur in group_by, which of the five filter lists
are non-empty, and the two sorting strings. -/
def textInputs (req : AggregateRequest) : List Bool × String × String :=
  ([contains req.GroupBy "product", contains req.GroupBy "country",
    contains req.GroupBy "port", contains req.GroupBy "year",
    contains req.GroupBy "trade_type",
    decide (req.TradeTypes.length > 0),
    decide (req.Filters.ProductIDs.length > 0),
    decide (req.Filters.CountryIDs.length > 0),
    decide (req.Filters.PortIDs.length > 0),
    decide (req.Filters.PortTypes.length > 0)],
   req.Sorting.SortBy, req.Sorting.SortOrder)

/-- The two statement texts returned by `BuildAggregateQuery`, without the
arguments. -/
def statementTexts (req : AggregateRequest) : Except String (String × String) :=
  match BuildAggregateQuery req with
  | Except.error msg => Except.error msg
  | Except.ok (query, countQuery, _) => Except.ok (query, countQuery)

/-- A request whose sort_by is an injection attempt. -/
def injectionRequest : AggregateRequest :=
  { sampleRequest with Sorting := { SortBy := "1=1; DROP TABLE x", SortOrder := "desc" } }

/-! ## Sample requests and text predicates used in the statements -/

/-- A request that groups by product and by country. -/
def conflictRequest : AggregateRequest :=
  { sampleRequest with GroupBy := ["product", "country"] }

/-- A request whose date range is reversed. -/
def reversedRangeRequest : AggregateRequest :=
  { sampleRequest with DateRange := { StartYear := 2022, EndYear := 2020 } }

/-- No position of the text carries the character `a` immediately followed by
the character `b`. -/
def pairFree (a b : Char) : List Char → Bool
  | x :: y :: rest => !(x == a && y == b) && pairFree a b (y :: rest)
  | _ => true

/-- The text does not begin with the character `b`. -/
def notStartsWith (b : Char) : List Char → Bool
  | [] => true
  | x :: _ => !(x == b)

/-- A piece of text that can be concatenated after any pair-free text: it is
pair-free itself and does not begin with the second character of the pair. -/
def goodPiece (a b : Char) (s : String) : Bool :=
  pairFree a b s.data && notStartsWith b s.data

/-- The constant pieces of text from which the count statement is assembled. -/
def countPieces : List String :=
  ["\n\t\tSELECT COUNT(*) FROM (", "\n\t\t\tSELECT ", "\n\t\t\tFROM ", " f", "\n\t\t\t",
   "\n\t\t\tWHERE ", "\n\t\t\tGROUP BY ", "\n\t\t) as subquery", "\n\t",
   ", ", " ", " AND ",
   "p.product_id", "p.product_desc_en", "p.product_desc_ar",
   "c.country_id", "c.country_name_en", "c.country_name_ar",
   "dp.port_id", "dp.port_name_en", "dp.port_name_ar", "f.year", "f.trade_type",
   "fact_trade_by_product_port", "fact_trade_by_country_port",
   "JOIN dim_product p ON f.product_id = p.product_id",
   "JOIN dim_country c ON f.country_id = c.country_id",
   "JOIN dim_port dp ON f.port_id = dp.port_id",
   "f.year BETWEEN $", " AND $", " = ANY($", ")",
   "f.product_id", "f.country_id", "f.port_id", "dp.port_type_en"]

/-- The statements the handler prepares for `sampleRequest`. -/
def sampleStatements : Statements :=
  { req := sampleRequest
    countQuery := sampleCountQuery
    countArgs := [Arg.int 2020, Arg.int 2022]
    query := sampleQuery ++ " LIMIT $3 OFFSET $4"
    args := [Arg.int 2020, Arg.int 2022, Arg.int 25, Arg.int 0]
    offset := 0 }

/-- A request that filters on countries and groups by year. -/
def countryFilterRequest : AggregateRequest :=
  { sampleRequest with
    Filters := { ProductIDs := [], CountryIDs := [4, 9], PortIDs := [], PortTypes := [] } }

/-- The triple that `BuildAggregateQuery` returns for `countryFilterRequest`. -/
def countryFilterTriple : String × String × List Arg :=
  ("\n\t\tSELECT f.year, SUM(f.value) as total_value" ++
   "\n\t\tFROM fact_trade_by_country_port f" ++
   "\n\t\t" ++
   "\n\t\tWHERE f.year BETWEEN $1 AND $2 AND f.country_id = ANY($3)" ++
   "\n\t\tGROUP BY f.year" ++
   "\n\t\tORDER BY total_value DESC" ++
   "\n\t",
   "\n\t\tSELECT COUNT(*) FROM (" ++
   "\n\t\t\tSELECT f.year" ++
   "\n\t\t\tFROM fact_trade_by_country_port f" ++
   "\n\t\t\t" ++
   "\n\t\t\tWHERE f.year BETWEEN $1 AND $2 AND f.country_id = ANY($3)" ++
   "\n\t\t\tGROUP BY f.year" ++
   "\n\t\t) as subquery" ++
   "\n\t",
   [Arg.int 2020, Arg.int 2022, Arg.int64s [4, 9]])

/-- A request that submits limit 5000 and no page. -/
def largeLimitRequest : AggregateRequest :=
  { sampleRequest with Pagination := { Page := 0, Limit := 5000 } }

/-- A request that omits sort_by and sort_order. -/
def omittedSortRequest : AggregateRequest :=
  { sampleRequest with Sorting := { SortBy := "", SortOrder := "" } }

/-- A request with page -1 and limit 10. -/
def negativePageRequest : AggregateRequest :=
  { sampleRequest with Pagination := { Page := -1, Limit := 10 } }

/-- A request for the third page of 25 rows. -/
def pagedRequest : AggregateRequest :=
  { sampleRequest with Pagination := { Page := 3, Limit := 25 } }

/-- A request for the last page an int can name, 1000 rows per page. -/
def overflowRequest : AggregateRequest :=
  { sampleRequest with Pagination := { Page := 9223372036854775807, Limit := 1000 } }

/-- A request with page 1 and limit -5. -/
def negativeLimitRequest : AggregateRequest :=
  { sampleRequest with Pagination := { Page := 1, Limit := -5 } }

/-- The filters of a request that are in force, in the order the spec fixes:
trade_types, product_ids, country_ids, port_ids, port_types. Each non-empty
filter is listed with the column it constrains and its array-valued argument. -/
def activeFilters (req : AggregateRequest) : List (String × Arg) :=
  (if req.TradeTypes ≠ [] then [("f.trade_type", Arg.strings req.TradeTypes)] else []) ++
  (if req.Filters.ProductIDs ≠ [] then
    [("f.product_id", Arg.int64s req.Filters.ProductIDs)] else []) ++
  (if req.Filters.CountryIDs ≠ [] then
    [("f.country_id", Arg.int64s req.Filters.CountryIDs)] else []) ++
  (if req.Filters.PortIDs ≠ [] then [("f.port_id", Arg.int64s req.Filters.PortIDs)] else []) ++
  (if req.Filters.PortTypes ≠ [] then
    [("dp.port_type_en", Arg.strings req.Filters.PortTypes)] else [])

/-- Set-membership predicates on the given columns with consecutive
placeholders starting at `k`. -/
def numbered : Nat → List String → List String
  | _, [] => []
  | k, c :: rest => (c ++ " = ANY($" ++ fmtD k ++ ")") :: numbered (k + 1) rest

/-- The value of a run of decimal digits. -/
def digitsValue (ds : List Char) : Nat :=
  ds.foldl (fun acc d => 10 * acc + (d.toNat - 48)) 0

/-- The placeholder numbers of a statement text, in order of occurrence: for
every `$` the decimal number that follows it. -/
def placeholders : List Char → List Nat
  | [] => []
  | c :: cs =>
    if c = '$' then digitsValue (cs.takeWhile Char.isDigit) :: placeholders cs
    else placeholders cs

/-- The filter columns selected by five flags, in the fixed order. -/
def filterColumns (a1 a2 a3 a4 a5 : Bool) : List String :=
  (if a1 then ["f.trade_type"] else []) ++ (if a2 then ["f.product_id"] else []) ++
  (if a3 then ["f.country_id"] else []) ++ (if a4 then ["f.port_id"] else []) ++
  (if a5 then ["dp.port_type_en"] else [])

/-- A request with every filter set, grouped by port, year and trade type. -/
def allFiltersRequest : AggregateRequest :=
  { DateRange := { StartYear := 2019, EndYear := 2023 }
    TradeTypes := ["Import", "Export"]
    GroupBy := ["port", "year", "trade_type"]
    Filters := { ProductIDs := [10, 11], CountryIDs := [], PortIDs := [3],
                 PortTypes := ["Sea"] }
    Pagination := { Page := 1, Limit := 25 }
    Sorting := { SortBy := "total_value", SortOrder := "desc" } }

/-- The triple that `BuildAggregateQuery` returns for `allFiltersRequest`. -/
def allFiltersTriple : String × String × List Arg :=
  ("\n\t\tSELECT dp.port_id, dp.port_name_en, dp.port_name_ar, f.year, f.trade_type, " ++
      "SUM(f.value) as total_value" ++
   "\n\t\tFROM fact_trade_by_product_port f" ++
   "\n\t\tJOIN dim_port dp ON f.port_id = dp.port_id" ++
   "\n\t\tWHERE f.year BETWEEN $1 AND $2 AND f.trade_type = ANY($3) AND " ++
      "f.product_id = ANY($4) AND f.port_id = ANY($5) AND dp.port_type_en = ANY($6)" ++
   "\n\t\tGROUP BY dp.port_id, dp.port_name_en, dp.port_name_ar, f.year, f.trade_type" ++
   "\n\t\tORDER BY total_value DESC" ++
   "\n\t",
   "\n\t\tSELECT COUNT(*) FROM (" ++
   "\n\t\t\tSELECT dp.port_id, dp.port_name_en, dp.port_name_ar, f.year, f.trade_type" ++
   "\n\t\t\tFROM fact_trade_by_product_port f" ++
   "\n\t\t\tJOIN dim_port dp ON f.port_id = dp.port_id" ++
   "\n\t\t\tWHERE f.year BETWEEN $1 AND $2 AND f.trade_type = ANY($3) AND " ++
      "f.product_id = ANY($4) AND f.port_id = ANY($5) AND dp.port_type_en = ANY($6)" ++
   "\n\t\t\tGROUP BY dp.port_id, dp.port_name_en, dp.port_name_ar, f.year, f.trade_type" ++
   "\n\t\t) as subquery" ++
   "\n\t",
   [Arg.int 2019, Arg.int 2023, Arg.strings ["Import", "Export"], Arg.int64s [10, 11],
    Arg.int64s [3], Arg.strings ["Sea"]])

/-- Characters that can occur inside an SQL identifier. -/
def isIdentChar (c : Char) : Bool := c.isAlphanum || c == '_'

/-- Scan for a qualified reference `a.` that starts at an identifier boundary;
the flag tells whether the current position is such a boundary. -/
def mentionsAliasFrom (a : List Char) : Bool → List Char → Bool
  | _, [] => false
  | boundary, c :: cs =>
    (boundary && (a ++ ['.']).isPrefixOf (c :: cs)) || mentionsAliasFrom a (!isIdentChar c) cs

/-- The SQL expression `e` refers to a column through the table alias `a`. -/
def mentionsAlias (a e : String) : Bool := mentionsAliasFrom a.data true e.data

/-- The alias a join clause `JOIN <table> <alias> ON ...` introduces: its third
word. -/
def joinAlias (j : String) : String := String.mk ((j.data.splitOn ' ').getD 2 [])

/-- A request grouped by port, with the repeated entry "port", and filtered on
the port type "Sea". -/
def seaPortRequest : AggregateRequest :=
  { sampleRequest with
    GroupBy := ["port", "port"]
    Filters := { ProductIDs := [], CountryIDs := [], PortIDs := [], PortTypes := ["Sea"] } }

/-- The triple that `BuildAggregateQuery` returns for `seaPortRequest`. -/
def seaPortTriple : String × String × List Arg :=
  ("\n\t\tSELECT dp.port_id, dp.port_name_en, dp.port_name_ar, SUM(f.value) as total_value" ++
   "\n\t\tFROM fact_trade_by_product_port f" ++
   "\n\t\tJOIN dim_port dp ON f.port_id = dp.port_id" ++
   "\n\t\tWHERE f.year BETWEEN $1 AND $2 AND dp.port_type_en = ANY($3)" ++
   "\n\t\tGROUP BY dp.port_id, dp.port_name_en, dp.port_name_ar" ++
   "\n\t\tORDER BY total_value DESC" ++
   "\n\t",
   "\n\t\tSELECT COUNT(*) FROM (" ++
   "\n\t\t\tSELECT dp.port_id, dp.port_name_en, dp.port_name_ar" ++
   "\n\t\t\tFROM fact_trade_by_product_port f" ++
   "\n\t\t\tJOIN dim_port dp ON f.port_id = dp.port_id" ++
   "\n\t\t\tWHERE f.year BETWEEN $1 AND $2 AND dp.port_type_en = ANY($3)" ++
   "\n\t\t\tGROUP BY dp.port_id, dp.port_name_en, dp.port_name_ar" ++
   "\n\t\t) as subquery" ++
   "\n\t",
   [Arg.int 2020, Arg.int 2022, Arg.strings ["Sea"]])

/-- The name under which a select expression appears in the result row: the
trailing identifier of the expression (the column of `t.col`, the alias of
`expr as alias`). -/
def outputName (e : String) : String :=
  String.mk ((e.data.reverse.takeWhile isIdentChar).reverse)

/-- A request grouped by year only and sorted by product_desc_en. -/
def sortMismatchRequest : AggregateRequest :=
  { sampleRequest with Sorting := { SortBy := "product_desc_en", SortOrder := "asc" } }

/-- The statements the handler prepares for `sortMismatchRequest`. -/
def sortMismatchStatements : Statements :=
  { req := sortMismatchRequest
    countQuery := sampleCountQuery
    countArgs := [Arg.int 2020, Arg.int 2022]
    query :=
      "\n\t\tSELECT f.year, SUM(f.value) as total_value" ++
      "\n\t\tFROM fact_trade_by_product_port f" ++
      "\n\t\t" ++
      "\n\t\tWHERE f.year BETWEEN $1 AND $2" ++
      "\n\t\tGROUP BY f.year" ++
      "\n\t\tORDER BY product_desc_en ASC" ++
      "\n\t" ++ " LIMIT $3 OFFSET $4"
    args := [Arg.int 2020, Arg.int 2022, Arg.int 25, Arg.int 0]
    offset := 0 }

/-! ## Projections of the builder steps -/

@[simp] theorem stepFilter_selectFields (a : Bool) (c : String) (v : Arg) (s : Locals) :
    (stepFilter a c v s).selectFields = s.selectFields := by
  unfold stepFilter; split <;> rfl

@[simp] theorem stepFilter_groupByFields (a : Bool) (c : String) (v : Arg) (s : Locals) :
    (stepFilter a c v s).groupByFields = s.groupByFields := by
  unfold stepFilter; split <;> rfl

@[simp] theorem stepFilter_factTable (a : Bool) (c : String) (v : Arg) (s : Locals) :
    (stepFilter a c v s).factTable = s.factTable := by
  unfold stepFilter; split <;> rfl

@[simp] theorem stepFilter_dimensionJoins (a : Bool) (c : String) (v : Arg) (s : Locals) :
    (stepFilter a c v s).dimensionJoins = s.dimensionJoins := by
  unfold stepFilter; split <;> rfl

@[simp] theorem stepFilters_selectFields (req : AggregateRequest) (s : Locals) :
    (stepFilters req s).selectFields = s.selectFields := by
  simp [stepFilters]

@[simp] theorem stepFilters_groupByFields (req : AggregateRequest) (s : Locals) :
    (stepFilters req s).groupByFields = s.groupByFields := by
  simp [stepFilters]

@[simp] theorem stepFilters_factTable (req : AggregateRequest) (s : Locals) :
    (stepFilters req s).factTable = s.factTable := by
  simp [stepFilters]

@[simp] theorem stepFilters_dimensionJoins (req : AggregateRequest) (s : Locals) :
    (stepFilters req s).dimensionJoins = s.dimensionJoins := by
  simp [stepFilters]

@[simp] theorem stepDateRange_selectFields (req : AggregateRequest) (s : Locals) :
    (stepDateRange req s).selectFields = s.selectFields := rfl

@[simp] theorem stepDateRange_groupByFields (req : AggregateRequest) (s : Locals) :
    (stepDateRange req s).groupByFields = s.groupByFields := rfl

@[simp] theorem stepDateRange_factTable (req : AggregateRequest) (s : Locals) :
    (stepDateRange req s).factTable = s.factTable := rfl

@[simp] theorem stepDateRange_dimensionJoins (req : AggregateRequest) (s : Locals) :
    (stepDateRange req s).dimensionJoins = s.dimensionJoins := rfl

@[simp] theorem stepScalars_factTable (req : AggregateRequest) (s : Locals) :
    (stepScalars req s).factTable = s.factTable := by
  unfold stepScalars; split_ifs <;> rfl

@[simp] theorem stepPort_factTable (req : AggregateRequest) (s : Locals) :
    (stepPort req s).factTable = s.factTable := by
  unfold stepPort; split_ifs <;> rfl

/-- The builder returns exactly when there is no product/country conflict, and
then its locals are the composition of the steps. -/
theorem buildLocals_eq_ok (req : AggregateRequest) (s : Locals) :
    buildLocals req = Except.ok s ↔
      (needsProduct req && needsCountry req) = false ∧
      s = stepFilters req (stepDateRange req (stepScalars req
        (stepPort req (stepFactTable req initLocals)))) := by
  unfold buildLocals
  cases h : (needsProduct req && needsCountry req)
  · simp [eq_comm]
  · simp

/-- The builder panics exactly on a product/country conflict. -/
theorem buildLocals_eq_error (req : AggregateRequest) (msg : String) :
    buildLocals req = Except.error msg ↔
      (needsProduct req && needsCountry req) = true ∧ msg = conflictMessage := by
  unfold buildLocals
  cases h : (needsProduct req && needsCountry req)
  · simp
  · simp [eq_comm]

/-- The triple returned by `BuildAggregateQuery` is formatted from the locals. -/
theorem BuildAggregateQuery_eq_ok (req : AggregateRequest) (r : String × String × List Arg) :
    BuildAggregateQuery req = Except.ok r ↔
      ∃ s, buildLocals req = Except.ok s ∧
        r = (formatQuery req s, formatCountQuery s, s.args) := by
  unfold BuildAggregateQuery
  cases h : buildLocals req with
  | error e => simp
  | ok s => simp [eq_comm]

theorem stepPort_selectFields (req : AggregateRequest) (s : Locals) :
    (stepPort req s).selectFields = s.selectFields ++
      (if contains req.GroupBy "port" then
        ["dp.port_id", "dp.port_name_en", "dp.port_name_ar"] else []) := by
  unfold stepPort
  cases hpo : contains req.GroupBy "port"
  · simp only [Bool.false_or, Bool.false_eq_true, if_false]
    split_ifs <;> simp
  · simp

theorem stepPort_groupByFields (req : AggregateRequest) (s : Locals) :
    (stepPort req s).groupByFields = s.groupByFields ++
      (if contains req.GroupBy "port" then
        ["dp.port_id", "dp.port_name_en", "dp.port_name_ar"] else []) := by
  unfold stepPort
  cases hpo : contains req.GroupBy "port"
  · simp only [Bool.false_or, Bool.false_eq_true, if_false]
    split_ifs <;> simp
  · simp

theorem stepScalars_selectFields (req : AggregateRequest) (s : Locals) :
    (stepScalars req s).selectFields = s.selectFields ++
      (if contains req.GroupBy "year" then ["f.year"] else []) ++
      (if contains req.GroupBy "trade_type" then ["f.trade_type"] else []) ++
      ["SUM(f.value) as total_value"] := by
  unfold stepScalars
  cases hy : contains req.GroupBy "year" <;> cases ht : contains req.GroupBy "trade_type" <;>
    simp

theorem stepScalars_groupByFields (req : AggregateRequest) (s : Locals) :
    (stepScalars req s).groupByFields = s.groupByFields ++
      (if contains req.GroupBy "year" then ["f.year"] else []) ++
      (if contains req.GroupBy "trade_type" then ["f.trade_type"] else []) := by
  unfold stepScalars
  cases hy : contains req.GroupBy "year" <;> cases ht : contains req.GroupBy "trade_type" <;>
    simp

theorem stepFactTable_selectFields (req : AggregateRequest) (s : Locals)
    (hc : (needsProduct req && needsCountry req) = false) :
    (stepFactTable req s).selectFields = s.selectFields ++
      (if contains req.GroupBy "product" then
        ["p.product_id", "p.product_desc_en", "p.product_desc_ar"] else []) ++
      (if contains req.GroupBy "country" then
        ["c.country_id", "c.country_name_en", "c.country_name_ar"] else []) := by
  unfold stepFactTable
  unfold needsProduct needsCountry at *
  cases hp : contains req.GroupBy "product" <;> cases hcn : contains req.GroupBy "country" <;>
    cases hfp : decide (req.Filters.ProductIDs.length > 0) <;>
    cases hfc : decide (req.Filters.CountryIDs.length > 0) <;>
    simp_all

theorem stepFactTable_groupByFields (req : AggregateRequest) (s : Locals)
    (hc : (needsProduct req && needsCountry req) = false) :
    (stepFactTable req s).groupByFields = s.groupByFields ++
      (if contains req.GroupBy "product" then
        ["p.product_id", "p.product_desc_en", "p.product_desc_ar"] else []) ++
      (if contains req.GroupBy "country" then
        ["c.country_id", "c.country_name_en", "c.country_name_ar"] else []) := by
  unfold stepFactTable
  unfold needsProduct needsCountry at *
  cases hp : contains req.GroupBy "product" <;> cases hcn : contains req.GroupBy "country" <;>
    cases hfp : decide (req.Filters.ProductIDs.length > 0) <;>
    cases hfc : decide (req.Filters.CountryIDs.length > 0) <;>
    simp_all

/-- The select list without a conflict, written as one concatenation. -/
theorem selectFields_eq (req : AggregateRequest) (s : Locals)
    (h : buildLocals req = Except.ok s) :
    s.selectFields =
      (if contains req.GroupBy "product" then
        ["p.product_id", "p.product_desc_en", "p.product_desc_ar"] else []) ++
      (if contains req.GroupBy "country" then
        ["c.country_id", "c.country_name_en", "c.country_name_ar"] else []) ++
      (if contains req.GroupBy "port" then
        ["dp.port_id", "dp.port_name_en", "dp.port_name_ar"] else []) ++
      (if contains req.GroupBy "year" then ["f.year"] else []) ++
      (if contains req.GroupBy "trade_type" then ["f.trade_type"] else []) ++
      ["SUM(f.value) as total_value"] := by
  obtain ⟨hc, rfl⟩ := (buildLocals_eq_ok req s).1 h
  simp only [stepFilters_selectFields, stepDateRange_selectFields, stepScalars_selectFields,
    stepPort_selectFields, stepFactTable_selectFields req initLocals hc]
  simp [initLocals]

/-- The list of scan targets written as one concatenation. -/
theorem BuildScanTargets_eq (req : AggregateRequest) :
    BuildScanTargets req =
      (if contains req.GroupBy "product" then
        [ResultField.ProductID, ResultField.ProductDescEN, ResultField.ProductDescAR]
        else []) ++
      (if contains req.GroupBy "country" then
        [ResultField.CountryID, ResultField.CountryNameEN, ResultField.CountryNameAR]
        else []) ++
      (if contains req.GroupBy "port" then
        [ResultField.PortID, ResultField.PortNameEN, ResultField.PortNameAR] else []) ++
      (if contains req.GroupBy "year" then [ResultField.Year] else []) ++
      (if contains req.GroupBy "trade_type" then [ResultField.TradeType] else []) ++
      [ResultField.TotalValue] := by
  unfold BuildScanTargets
  cases hp : contains req.GroupBy "product" <;> cases hcn : contains req.GroupBy "country" <;>
    cases hpo : contains req.GroupBy "port" <;> cases hy : contains req.GroupBy "year" <;>
    cases ht : contains req.GroupBy "trade_type" <;> simp

/-! ## C1: scan targets and select list -/

/-- C1. Whenever `BuildAggregateQuery` returns, the select list it has built is
the list of scan targets of `BuildScanTargets` read column by column: the
product triple iff product is grouped, the country triple iff country is
grouped, the port triple iff port is grouped, year iff grouped, trade_type iff
grouped, and the total value last; the two lists have the same length. -/
theorem scan_targets_match_select_list (req : AggregateRequest)
    (r : String × String × List Arg) (h : BuildAggregateQuery req = Except.ok r) :
    ∃ s, buildLocals req = Except.ok s ∧
      r = (formatQuery req s, formatCountQuery s, s.args) ∧
      s.selectFields = (BuildScanTargets req).map selectColumn ∧
      BuildScanTargets req =
        (if contains req.GroupBy "product" then
          [ResultField.ProductID, ResultField.ProductDescEN, ResultField.ProductDescAR]
          else []) ++
        (if contains req.GroupBy "country" then
          [ResultField.CountryID, ResultField.CountryNameEN, ResultField.CountryNameAR]
          else []) ++
        (if contains req.GroupBy "port" then
          [ResultField.PortID, ResultField.PortNameEN, ResultField.PortNameAR] else []) ++
        (if contains req.GroupBy "year" then [ResultField.Year] else []) ++
        (if contains req.GroupBy "trade_type" then [ResultField.TradeType] else []) ++
        [ResultField.TotalValue] ∧
      (BuildScanTargets req).length = s.selectFields.length := by
  obtain ⟨s, hs, hr⟩ := (BuildAggregateQuery_eq_ok req r).1 h
  have hsel : s.selectFields = (BuildScanTargets req).map selectColumn := by
    rw [selectFields_eq req s hs, BuildScanTargets_eq]
    cases hp : contains req.GroupBy "product" <;> cases hcn : contains req.GroupBy "country" <;>
      cases hpo : contains req.GroupBy "port" <;> cases hy : contains req.GroupBy "year" <;>
      cases ht : contains req.GroupBy "trade_type" <;> simp [selectColumn]
  refine ⟨s, hs, hr, hsel, BuildScanTargets_eq req, ?_⟩
  rw [hsel, List.length_map]

/-- Witness for C1 on the sample request. -/
theorem scan_targets_match_select_list_witness :
    BuildAggregateQuery sampleRequest = Except.ok sampleTriple ∧
    ∃ s, buildLocals sampleRequest = Except.ok s ∧
      sampleTriple = (formatQuery sampleRequest s, formatCountQuery s, s.args) ∧
      s.selectFields = (BuildScanTargets sampleRequest).map selectColumn ∧
      BuildScanTargets sampleRequest =
        (if contains sampleRequest.GroupBy "product" then
          [ResultField.ProductID, ResultField.ProductDescEN, ResultField.ProductDescAR]
          else []) ++
        (if contains sampleRequest.GroupBy "country" then
          [ResultField.CountryID, ResultField.CountryNameEN, ResultField.CountryNameAR]
          else []) ++
        (if contains sampleRequest.GroupBy "port" then
          [ResultField.PortID, ResultField.PortNameEN, ResultField.PortNameAR] else []) ++
        (if contains sampleRequest.GroupBy "year" then [ResultField.Year] else []) ++
        (if contains sampleRequest.GroupBy "trade_type" then [ResultField.TradeType] else []) ++
        [ResultField.TotalValue] ∧
      (BuildScanTargets sampleRequest).length = s.selectFields.length :=
  ⟨rfl, scan_targets_match_select_list sampleRequest sampleTriple rfl⟩

/-! ## C2: the structural conflict -/

theorem contains_eq_true_iff (l : List String) (item : String) :
    contains l item = true ↔ item ∈ l := by
  induction l with
  | nil => simp [contains]
  | cons a l ih =>
    unfold contains
    by_cases h : a = item
    · simp [h]
    · have h2 : ¬ item = a := fun e => h e.symm
      simp [h, h2, ih]

theorem needsProduct_iff (req : AggregateRequest) :
    needsProduct req = true ↔ ("product" ∈ req.GroupBy ∨ req.Filters.ProductIDs ≠ []) := by
  unfold needsProduct
  simp [contains_eq_true_iff, List.length_pos]

theorem needsCountry_iff (req : AggregateRequest) :
    needsCountry req = true ↔ ("country" ∈ req.GroupBy ∨ req.Filters.CountryIDs ≠ []) := by
  unfold needsCountry
  simp [contains_eq_true_iff, List.length_pos]

theorem BuildAggregateQuery_eq_error (req : AggregateRequest) (msg : String) :
    BuildAggregateQuery req = Except.error msg ↔
      (needsProduct req && needsCountry req) = true ∧ msg = conflictMessage := by
  rw [← buildLocals_eq_error]
  unfold BuildAggregateQuery
  cases h : buildLocals req with
  | error e => simp
  | ok s => simp

/-- C2. `BuildAggregateQuery` panics if and only if the request needs product
(group_by contains "product" or product_ids is non-empty) and needs country
(group_by contains "country" or country_ids is non-empty). In particular a
request whose group_by contains both names panics whatever its other fields
are, and then no statement is returned. -/
theorem build_fails_iff_conflict (req : AggregateRequest) :
    ((∃ msg, BuildAggregateQuery req = Except.error msg) ↔
      ("product" ∈ req.GroupBy ∨ req.Filters.ProductIDs ≠ []) ∧
      ("country" ∈ req.GroupBy ∨ req.Filters.CountryIDs ≠ [])) ∧
    ("product" ∈ req.GroupBy → "country" ∈ req.GroupBy →
      BuildAggregateQuery req = Except.error conflictMessage ∧
      ∀ r, BuildAggregateQuery req ≠ Except.ok r) := by
  have key : (∃ msg, BuildAggregateQuery req = Except.error msg) ↔
      ("product" ∈ req.GroupBy ∨ req.Filters.ProductIDs ≠ []) ∧
      ("country" ∈ req.GroupBy ∨ req.Filters.CountryIDs ≠ []) := by
    rw [← needsProduct_iff, ← needsCountry_iff]
    constructor
    · rintro ⟨msg, h⟩
      have := ((BuildAggregateQuery_eq_error req msg).1 h).1
      simpa using this
    · rintro ⟨h1, h2⟩
      exact ⟨conflictMessage, (BuildAggregateQuery_eq_error req _).2 ⟨by simp [h1, h2], rfl⟩⟩
  refine ⟨key, fun hp hc => ?_⟩
  obtain ⟨msg, hmsg⟩ := key.2 ⟨Or.inl hp, Or.inl hc⟩
  have hm := ((BuildAggregateQuery_eq_error req msg).1 hmsg).2
  subst hm
  refine ⟨hmsg, fun r hr => ?_⟩
  rw [hmsg] at hr
  cases hr

/-- Witness for C2: grouping by product and country panics. -/
theorem build_fails_iff_conflict_witness :
    "product" ∈ conflictRequest.GroupBy ∧ "country" ∈ conflictRequest.GroupBy ∧
    BuildAggregateQuery conflictRequest = Except.error conflictMessage ∧
    ∀ r, BuildAggregateQuery conflictRequest ≠ Except.ok r :=
  ⟨by decide, by decide, (build_fails_iff_conflict conflictRequest).2 (by decide) (by decide)⟩

/-! ## C3: the validator -/

theorem mapLookup_validGroupBy (g : String) :
    mapLookup validGroupBy g = true ↔
      g ∈ ["year", "product", "country", "port", "trade_type"] := by
  simp only [validGroupBy, mapLookup]
  split_ifs <;> simp_all

theorem mapLookup_validTradeTypes (t : String) :
    mapLookup validTradeTypes t = true ↔ t ∈ ["Import", "Export", "Re-Export"] := by
  simp only [validTradeTypes, mapLookup]
  split_ifs <;> simp_all

theorem mapLookup_validSortBy (f : String) :
    mapLookup validSortBy f = true ↔
      f ∈ ["total_value", "year", "product_desc_en", "country_name_en", "port_name_en",
        "trade_type"] := by
  simp only [validSortBy, mapLookup]
  split_ifs <;> simp_all

theorem firstInvalid_eq_none (valid : List (String × Bool)) (l : List String) :
    firstInvalid valid l = none ↔ ∀ g ∈ l, mapLookup valid g = true := by
  induction l with
  | nil => simp [firstInvalid]
  | cons a l ih =>
    unfold firstInvalid
    cases h : mapLookup valid a <;> simp [h, ih]

/-- The checks succeed exactly when the five conditions hold. -/
theorem validateChecks_eq_ok (req : AggregateRequest) :
    validateChecks req = Except.ok () ↔
      (req.DateRange.StartYear ≠ 0 ∧ req.DateRange.EndYear ≠ 0 ∧
        req.DateRange.StartYear ≤ req.DateRange.EndYear) ∧
      (req.GroupBy ≠ [] ∧
        ∀ g ∈ req.GroupBy, g ∈ ["year", "product", "country", "port", "trade_type"]) ∧
      (∀ t ∈ req.TradeTypes, t ∈ ["Import", "Export", "Re-Export"]) ∧
      req.Sorting.SortBy ∈ ["total_value", "year", "product_desc_en", "country_name_en",
        "port_name_en", "trade_type"] ∧
      (req.Sorting.SortOrder = "asc" ∨ req.Sorting.SortOrder = "desc") := by
  have hg := firstInvalid_eq_none validGroupBy req.GroupBy
  have ht := firstInvalid_eq_none validTradeTypes req.TradeTypes
  simp only [mapLookup_validGroupBy] at hg
  simp only [mapLookup_validTradeTypes] at ht
  rw [← hg, ← ht, ← mapLookup_validSortBy]
  unfold validateChecks
  by_cases h1 : req.DateRange.StartYear = 0 ∨ req.DateRange.EndYear = 0
  · rw [if_pos h1]
    rcases h1 with h1 | h1 <;> simp [h1]
  rw [if_neg h1]
  push_neg at h1
  by_cases h2 : req.DateRange.StartYear > req.DateRange.EndYear
  · rw [if_pos h2]
    simp [not_le.2 h2]
  rw [if_neg h2]
  by_cases h3 : req.GroupBy.length = 0
  · rw [if_pos h3]
    simp [List.length_eq_zero.1 h3]
  rw [if_neg h3]
  have h3b : req.GroupBy ≠ [] := fun e => h3 (by simp [e])
  cases h4 : firstInvalid validGroupBy req.GroupBy with
  | some g => simp
  | none =>
    cases h5 : firstInvalid validTradeTypes req.TradeTypes with
    | some t => simp
    | none =>
      cases h6 : mapLookup validSortBy req.Sorting.SortBy with
      | false => simp
      | true =>
        by_cases h7 : req.Sorting.SortOrder ≠ "asc" ∧ req.Sorting.SortOrder ≠ "desc"
        · simp [h7]
        · have h8 : req.Sorting.SortOrder = "asc" ∨ req.Sorting.SortOrder = "desc" := by
            by_contra hc
            push_neg at hc
            exact h7 hc
          simp only [Bool.not_true, Bool.false_eq_true, if_false, if_neg h7]
          simp [h1.1, h1.2, not_lt.1 h2, h3b, h8]

/-- C3. `validateAggregateRequest` returns ok if and only if: start_year and
end_year are non-zero with start_year <= end_year; group_by is non-empty and
each entry is one of the five dimension names; each entry of trade_types is one
of the three labels; sort_by is one of the six sort fields; sort_order is asc or
desc. Otherwise it returns a validation error. It leaves the request as it
was. -/
theorem validate_ok_iff (req : AggregateRequest) :
    ((validateAggregateRequest req).1 = Except.ok () ↔
      (req.DateRange.StartYear ≠ 0 ∧ req.DateRange.EndYear ≠ 0 ∧
        req.DateRange.StartYear ≤ req.DateRange.EndYear) ∧
      (req.GroupBy ≠ [] ∧
        ∀ g ∈ req.GroupBy, g ∈ ["year", "product", "country", "port", "trade_type"]) ∧
      (∀ t ∈ req.TradeTypes, t ∈ ["Import", "Export", "Re-Export"]) ∧
      req.Sorting.SortBy ∈ ["total_value", "year", "product_desc_en", "country_name_en",
        "port_name_en", "trade_type"] ∧
      (req.Sorting.SortOrder = "asc" ∨ req.Sorting.SortOrder = "desc")) ∧
    ((validateAggregateRequest req).1 ≠ Except.ok () →
      ∃ msg, (validateAggregateRequest req).1 = Except.error msg) ∧
    (validateAggregateRequest req).2 = req := by
  refine ⟨validateChecks_eq_ok req, fun h => ?_, rfl⟩
  cases h2 : (validateAggregateRequest req).1 with
  | error msg => exact ⟨msg, rfl⟩
  | ok u => exact absurd h2 h

/-- Witness for C3: a reversed date range is answered by a validation error. -/
theorem validate_ok_iff_witness :
    (validateAggregateRequest reversedRangeRequest).1 ≠ Except.ok () ∧
    ∃ msg, (validateAggregateRequest reversedRangeRequest).1 = Except.error msg :=
  ⟨by decide, (validate_ok_iff reversedRangeRequest).2.1 (by decide)⟩

/-! ## C4: what is interpolated into the statement text -/

theorem stepFactTable_text (r1 r2 : AggregateRequest) (s1 s2 : Locals)
    (hp : contains r1.GroupBy "product" = contains r2.GroupBy "product")
    (hc : contains r1.GroupBy "country" = contains r2.GroupBy "country")
    (hfp : decide (r1.Filters.ProductIDs.length > 0) = decide (r2.Filters.ProductIDs.length > 0))
    (hfc : decide (r1.Filters.CountryIDs.length > 0) = decide (r2.Filters.CountryIDs.length > 0))
    (h : s1.text = s2.text) :
    (stepFactTable r1 s1).text = (stepFactTable r2 s2).text := by
  unfold stepFactTable needsProduct needsCountry
  simp only [Locals.text, Prod.mk.injEq] at h
  rw [hp, hc, hfp, hfc]
  split_ifs <;> simp_all [Locals.text]

theorem stepPort_text (r1 r2 : AggregateRequest) (s1 s2 : Locals)
    (hpo : contains r1.GroupBy "port" = contains r2.GroupBy "port")
    (hfi : decide (r1.Filters.PortIDs.length > 0) = decide (r2.Filters.PortIDs.length > 0))
    (hft : decide (r1.Filters.PortTypes.length > 0) = decide (r2.Filters.PortTypes.length > 0))
    (h : s1.text = s2.text) :
    (stepPort r1 s1).text = (stepPort r2 s2).text := by
  unfold stepPort
  simp only [Locals.text, Prod.mk.injEq] at h
  rw [hpo, hfi, hft]
  split_ifs <;> simp_all [Locals.text]

theorem stepScalars_text (r1 r2 : AggregateRequest) (s1 s2 : Locals)
    (hy : contains r1.GroupBy "year" = contains r2.GroupBy "year")
    (ht : contains r1.GroupBy "trade_type" = contains r2.GroupBy "trade_type")
    (h : s1.text = s2.text) :
    (stepScalars r1 s1).text = (stepScalars r2 s2).text := by
  unfold stepScalars
  simp only [Locals.text, Prod.mk.injEq] at h
  rw [hy, ht]
  split_ifs <;> simp_all [Locals.text]

theorem stepDateRange_text (r1 r2 : AggregateRequest) (s1 s2 : Locals)
    (h : s1.text = s2.text) :
    (stepDateRange r1 s1).text = (stepDateRange r2 s2).text := by
  unfold stepDateRange
  simp only [Locals.text, Prod.mk.injEq] at h
  simp_all [Locals.text]

theorem stepFilter_text (a : Bool) (c : String) (v1 v2 : Arg) (s1 s2 : Locals)
    (h : s1.text = s2.text) :
    (stepFilter a c v1 s1).text = (stepFilter a c v2 s2).text := by
  unfold stepFilter
  simp only [Locals.text, Prod.mk.injEq] at h
  cases a <;> simp_all [Locals.text]

theorem stepFilters_text (r1 r2 : AggregateRequest) (s1 s2 : Locals)
    (h1 : decide (r1.TradeTypes.length > 0) = decide (r2.TradeTypes.length > 0))
    (h2 : decide (r1.Filters.ProductIDs.length > 0) = decide (r2.Filters.ProductIDs.length > 0))
    (h3 : decide (r1.Filters.CountryIDs.length > 0) = decide (r2.Filters.CountryIDs.length > 0))
    (h4 : decide (r1.Filters.PortIDs.length > 0) = decide (r2.Filters.PortIDs.length > 0))
    (h5 : decide (r1.Filters.PortTypes.length > 0) = decide (r2.Filters.PortTypes.length > 0))
    (h : s1.text = s2.text) :
    (stepFilters r1 s1).text = (stepFilters r2 s2).text := by
  unfold stepFilters
  rw [h1, h2, h3, h4, h5]
  exact stepFilter_text _ _ _ _ _ _ (stepFilter_text _ _ _ _ _ _ (stepFilter_text _ _ _ _ _ _
    (stepFilter_text _ _ _ _ _ _ (stepFilter_text _ _ _ _ _ _ h))))

/-- Requests with the same text inputs give the same statement texts, and fail
together. -/
theorem statementTexts_congr (r1 r2 : AggregateRequest) (h : textInputs r1 = textInputs r2) :
    statementTexts r1 = statementTexts r2 := by
  simp only [textInputs, Prod.mk.injEq, List.cons.injEq, and_true] at h
  obtain ⟨⟨hp, hc, hpo, hy, ht, f1, f2, f3, f4, f5⟩, hsb, hso⟩ := h
  have hnp : needsProduct r1 = needsProduct r2 := by unfold needsProduct; rw [hp, f2]
  have hnc : needsCountry r1 = needsCountry r2 := by unfold needsCountry; rw [hc, f3]
  have htext := stepFilters_text r1 r2 _ _ f1 f2 f3 f4 f5
    (stepDateRange_text r1 r2 _ _ (stepScalars_text r1 r2 _ _ hy ht
      (stepPort_text r1 r2 _ _ hpo f4 f5
        (stepFactTable_text r1 r2 initLocals initLocals hp hc f2 f3 rfl))))
  simp only [Locals.text, Prod.mk.injEq] at htext
  obtain ⟨-, e1, e2, e3, e4, e5⟩ := htext
  unfold statementTexts BuildAggregateQuery buildLocals
  rw [hnp, hnc]
  cases hcf : (needsProduct r2 && needsCountry r2)
  · simp only [Bool.false_eq_true, if_false]
    simp only [formatQuery, formatCountQuery, e1, e2, e3, e4, e5, hsb, hso]
  · simp

theorem ToUpper_asc : ToUpper "asc" = "ASC" := by decide

theorem ToUpper_desc : ToUpper "desc" = "DESC" := by decide

/-- On a validated request the sorting defaults of `setDefaults` do not fire. -/
theorem setDefaults_Sorting (req : AggregateRequest)
    (h : validateChecks req = Except.ok ()) :
    (setDefaults req).Sorting = req.Sorting := by
  obtain ⟨-, -, -, hsb, hso⟩ := (validateChecks_eq_ok req).1 h
  have h1 : req.Sorting.SortBy ≠ "" := by
    intro e; rw [e] at hsb; revert hsb; decide
  have h2 : req.Sorting.SortOrder ≠ "" := by
    intro e; rw [e] at hso; revert hso; decide
  unfold setDefaults
  simp only []
  split_ifs <;> simp_all

theorem setDefaults_GroupBy (req : AggregateRequest) :
    (setDefaults req).GroupBy = req.GroupBy := by
  unfold setDefaults
  simp only []
  split_ifs <;> rfl

theorem setDefaults_TradeTypes (req : AggregateRequest) :
    (setDefaults req).TradeTypes = req.TradeTypes := by
  unfold setDefaults
  simp only []
  split_ifs <;> rfl

theorem setDefaults_Filters (req : AggregateRequest) :
    (setDefaults req).Filters = req.Filters := by
  unfold setDefaults
  simp only []
  split_ifs <;> rfl

theorem setDefaults_DateRange (req : AggregateRequest) :
    (setDefaults req).DateRange = req.DateRange := by
  unfold setDefaults
  simp only []
  split_ifs <;> rfl

/-- The handler reaches the database exactly when validation and the builder
succeed; the statements are then the builder's, with the pagination suffix. -/
theorem AggregateTradeData_eq_statements (body : AggregateRequest) (st : Statements) :
    AggregateTradeData body = Outcome.statements st ↔
      validateChecks body = Except.ok () ∧
      ∃ l, buildLocals (setDefaults body) = Except.ok l ∧
        st =
          { req := setDefaults body
            countQuery := formatCountQuery l
            countArgs := l.args
            query := formatQuery (setDefaults body) l ++
              (" LIMIT $" ++ fmtD (l.args.length + 1) ++ " OFFSET $" ++
                fmtD (l.args.length + 2))
            args := l.args ++ [Arg.int (setDefaults body).Pagination.Limit,
              Arg.int (intMul (intSub (setDefaults body).Pagination.Page 1)
                (setDefaults body).Pagination.Limit)]
            offset := intMul (intSub (setDefaults body).Pagination.Page 1)
              (setDefaults body).Pagination.Limit } := by
  unfold AggregateTradeData validateAggregateRequest BuildAggregateQuery
  cases hv : validateChecks body with
  | error e => simp
  | ok u =>
    cases hb : buildLocals (setDefaults body) with
    | error e => simp [hb]
    | ok l => simp [hb, eq_comm]

/-- A rejected request ends the handler with the validator's message. -/
theorem AggregateTradeData_eq_badRequest (body : AggregateRequest) (msg : String) :
    AggregateTradeData body = Outcome.badRequest msg ↔
      validateChecks body = Except.error msg := by
  unfold AggregateTradeData validateAggregateRequest
  cases hv : validateChecks body with
  | error e => simp
  | ok u =>
    cases hb : BuildAggregateQuery (setDefaults body) with
    | error e => simp [hb]
    | ok l => simp [hb]

/-- C4. A sort_by outside the six-name allow-list is rejected by
`validateAggregateRequest` (and the handler answers with that error). For every
request for which the handler reaches the database, the sorting strings are the
validated ones, the text after ORDER BY in the data statement is an allow-listed
field name followed by ASC or DESC, and the statement texts depend on the
request only through the text inputs: which dimension names occur in group_by,
which filters are non-empty, and the two sorting strings. -/
theorem order_by_is_allow_listed :
    (∀ req : AggregateRequest,
      req.Sorting.SortBy ∉ ["total_value", "year", "product_desc_en", "country_name_en",
        "port_name_en", "trade_type"] →
      ∃ msg, (validateAggregateRequest req).1 = Except.error msg ∧
        AggregateTradeData req = Outcome.badRequest msg) ∧
    (∀ (body : AggregateRequest) (st : Statements),
      AggregateTradeData body = Outcome.statements st →
      st.req.Sorting = body.Sorting ∧
      st.req.Sorting.SortBy ∈ ["total_value", "year", "product_desc_en", "country_name_en",
        "port_name_en", "trade_type"] ∧
      (ToUpper st.req.Sorting.SortOrder = "ASC" ∨ ToUpper st.req.Sorting.SortOrder = "DESC") ∧
      ∃ l, buildLocals st.req = Except.ok l ∧
        st.query =
          "\n\t\tSELECT " ++ Join l.selectFields ", " ++
          "\n\t\tFROM " ++ l.factTable ++ " f" ++
          "\n\t\t" ++ Join l.dimensionJoins " " ++
          "\n\t\tWHERE " ++ Join l.whereClauses " AND " ++
          "\n\t\tGROUP BY " ++ Join l.groupByFields ", " ++
          "\n\t\tORDER BY " ++ st.req.Sorting.SortBy ++ " " ++
            ToUpper st.req.Sorting.SortOrder ++
          "\n\t" ++
          (" LIMIT $" ++ fmtD (l.args.length + 1) ++ " OFFSET $" ++
            fmtD (l.args.length + 2))) ∧
    (∀ r1 r2 : AggregateRequest, textInputs r1 = textInputs r2 →
      statementTexts r1 = statementTexts r2) := by
  refine ⟨fun req hsb => ?_, fun body st h => ?_, statementTexts_congr⟩
  · cases hv : validateChecks req with
    | error msg =>
      exact ⟨msg, hv, (AggregateTradeData_eq_badRequest req msg).2 hv⟩
    | ok u =>
      exact absurd ((validateChecks_eq_ok req).1 hv).2.2.2.1 hsb
  · obtain ⟨hv, l, hl, rfl⟩ := (AggregateTradeData_eq_statements body st).1 h
    obtain ⟨-, -, -, hsb, hso⟩ := (validateChecks_eq_ok body).1 hv
    have hs := setDefaults_Sorting body hv
    refine ⟨hs, ?_, ?_, l, hl, ?_⟩
    · simp only [hs]; exact hsb
    · simp only [hs]
      rcases hso with e | e
      · left; rw [e]; exact ToUpper_asc
      · right; rw [e]; exact ToUpper_desc
    · rfl

/-- Witness for C4: the injection attempt is rejected by the validator. -/
theorem order_by_is_allow_listed_witness :
    injectionRequest.Sorting.SortBy ∉ ["total_value", "year", "product_desc_en",
      "country_name_en", "port_name_en", "trade_type"] ∧
    ∃ msg, (validateAggregateRequest injectionRequest).1 = Except.error msg ∧
      AggregateTradeData injectionRequest = Outcome.badRequest msg :=
  ⟨by decide, order_by_is_allow_listed.1 injectionRequest (by decide)⟩

/-! ## Explicit form of the locals -/

theorem stepFilter_whereClauses (a : Bool) (c : String) (v : Arg) (s : Locals) :
    (stepFilter a c v s).whereClauses = s.whereClauses ++
      (if a then [c ++ " = ANY($" ++ fmtD (s.argCount + 1) ++ ")"] else []) := by
  unfold stepFilter; cases a <;> simp

theorem stepFilter_args (a : Bool) (c : String) (v : Arg) (s : Locals) :
    (stepFilter a c v s).args = s.args ++ (if a then [v] else []) := by
  unfold stepFilter; cases a <;> simp

theorem stepFilter_argCount (a : Bool) (c : String) (v : Arg) (s : Locals) :
    (stepFilter a c v s).argCount = s.argCount + (if a then 1 else 0) := by
  unfold stepFilter; cases a <;> simp

theorem stepFactTable_dimensionJoins (req : AggregateRequest) (s : Locals)
    (hc : (needsProduct req && needsCountry req) = false) :
    (stepFactTable req s).dimensionJoins = s.dimensionJoins ++
      (if contains req.GroupBy "product" then
        ["JOIN dim_product p ON f.product_id = p.product_id"] else []) ++
      (if contains req.GroupBy "country" then
        ["JOIN dim_country c ON f.country_id = c.country_id"] else []) := by
  unfold stepFactTable
  unfold needsProduct needsCountry at *
  cases hp : contains req.GroupBy "product" <;> cases hcn : contains req.GroupBy "country" <;>
    cases hfp : decide (req.Filters.ProductIDs.length > 0) <;>
    cases hfc : decide (req.Filters.CountryIDs.length > 0) <;>
    simp_all

theorem stepPort_dimensionJoins (req : AggregateRequest) (s : Locals) :
    (stepPort req s).dimensionJoins = s.dimensionJoins ++
      (if contains req.GroupBy "port" || decide (req.Filters.PortTypes.length > 0)
          || decide (req.Filters.PortIDs.length > 0) then
        ["JOIN dim_port dp ON f.port_id = dp.port_id"] else []) := by
  unfold stepPort
  split_ifs <;> simp

@[simp] theorem stepScalars_dimensionJoins (req : AggregateRequest) (s : Locals) :
    (stepScalars req s).dimensionJoins = s.dimensionJoins := by
  unfold stepScalars; split_ifs <;> rfl

theorem stepFactTable_factTable (req : AggregateRequest) (s : Locals) :
    (stepFactTable req s).factTable =
      if needsProduct req then "fact_trade_by_product_port"
      else if needsCountry req then "fact_trade_by_country_port"
      else "fact_trade_by_product_port" := by
  unfold stepFactTable
  split_ifs <;> rfl

/-- The group-by list without a conflict, written as one concatenation. -/
theorem groupByFields_eq (req : AggregateRequest) (s : Locals)
    (h : buildLocals req = Except.ok s) :
    s.groupByFields =
      (if contains req.GroupBy "product" then
        ["p.product_id", "p.product_desc_en", "p.product_desc_ar"] else []) ++
      (if contains req.GroupBy "country" then
        ["c.country_id", "c.country_name_en", "c.country_name_ar"] else []) ++
      (if contains req.GroupBy "port" then
        ["dp.port_id", "dp.port_name_en", "dp.port_name_ar"] else []) ++
      (if contains req.GroupBy "year" then ["f.year"] else []) ++
      (if contains req.GroupBy "trade_type" then ["f.trade_type"] else []) := by
  obtain ⟨hc, rfl⟩ := (buildLocals_eq_ok req s).1 h
  simp only [stepFilters_groupByFields, stepDateRange_groupByFields, stepScalars_groupByFields,
    stepPort_groupByFields, stepFactTable_groupByFields req initLocals hc]
  simp [initLocals]

/-- The join list without a conflict, written as one concatenation. -/
theorem dimensionJoins_eq (req : AggregateRequest) (s : Locals)
    (h : buildLocals req = Except.ok s) :
    s.dimensionJoins =
      (if contains req.GroupBy "product" then
        ["JOIN dim_product p ON f.product_id = p.product_id"] else []) ++
      (if contains req.GroupBy "country" then
        ["JOIN dim_country c ON f.country_id = c.country_id"] else []) ++
      (if contains req.GroupBy "port" || decide (req.Filters.PortTypes.length > 0)
          || decide (req.Filters.PortIDs.length > 0) then
        ["JOIN dim_port dp ON f.port_id = dp.port_id"] else []) := by
  obtain ⟨hc, rfl⟩ := (buildLocals_eq_ok req s).1 h
  simp only [stepFilters_dimensionJoins, stepDateRange_dimensionJoins,
    stepScalars_dimensionJoins, stepPort_dimensionJoins,
    stepFactTable_dimensionJoins req initLocals hc]
  simp [initLocals]

/-- The fact table chosen by the builder. -/
theorem factTable_eq (req : AggregateRequest) (s : Locals)
    (h : buildLocals req = Except.ok s) :
    s.factTable =
      if needsProduct req then "fact_trade_by_product_port"
      else if needsCountry req then "fact_trade_by_country_port"
      else "fact_trade_by_product_port" := by
  obtain ⟨-, rfl⟩ := (buildLocals_eq_ok req s).1 h
  simp only [stepFilters_factTable, stepDateRange_factTable, stepScalars_factTable,
    stepPort_factTable, stepFactTable_factTable]

/-- Every WHERE predicate is the date-range predicate or a set-membership
predicate on one of the five filter columns, with decimal placeholders. -/
theorem whereClauses_forms (req : AggregateRequest) (s : Locals)
    (h : buildLocals req = Except.ok s) :
    ∀ w ∈ s.whereClauses,
      (∃ m n, w = "f.year BETWEEN $" ++ fmtD m ++ " AND $" ++ fmtD n) ∨
      ∃ c ∈ ["f.trade_type", "f.product_id", "f.country_id", "f.port_id", "dp.port_type_en"],
        ∃ n, w = c ++ " = ANY($" ++ fmtD n ++ ")" := by
  obtain ⟨-, rfl⟩ := (buildLocals_eq_ok req s).1 h
  intro w hw
  simp only [stepFilters, stepFilter_whereClauses, List.mem_append] at hw
  rcases hw with ((((hw | hw) | hw) | hw) | hw) | hw
  · left
    simp only [stepDateRange, List.mem_append, List.mem_singleton] at hw
    have h0 : (stepScalars req (stepPort req (stepFactTable req initLocals))).whereClauses
        = [] := by
      unfold stepScalars stepPort stepFactTable initLocals
      split_ifs <;> rfl
    rw [h0] at hw
    rcases hw with hw | hw
    · cases hw
    · exact ⟨_, _, hw⟩
  all_goals
    right
    split_ifs at hw
    · simp only [List.mem_singleton] at hw
      exact ⟨_, by simp, _, hw⟩
    · cases hw

/-! ## Texts without a given pair of adjacent characters -/

theorem pairFree_cons_cons (a b x y : Char) (rest : List Char) :
    pairFree a b (x :: y :: rest) = (!(x == a && y == b) && pairFree a b (y :: rest)) := by
  simp [pairFree]

theorem pairFree_append (a b : Char) (x y : List Char)
    (hx : pairFree a b x = true) (hy : pairFree a b y = true)
    (hs : notStartsWith b y = true) : pairFree a b (x ++ y) = true := by
  induction x with
  | nil => simpa using hy
  | cons c x ih =>
    cases x with
    | nil =>
      cases y with
      | nil => simp [pairFree]
      | cons d y =>
        simp only [notStartsWith, Bool.not_eq_true', beq_eq_false_iff_ne, ne_eq] at hs
        rw [List.singleton_append, pairFree_cons_cons, Bool.and_eq_true]
        refine ⟨?_, hy⟩
        simp [hs]
    | cons d x =>
      rw [pairFree_cons_cons, Bool.and_eq_true] at hx
      rw [List.cons_append, List.cons_append, pairFree_cons_cons, Bool.and_eq_true]
      exact ⟨hx.1, ih hx.2⟩

theorem notStartsWith_append (b : Char) (x y : List Char)
    (hx : notStartsWith b x = true) (hy : notStartsWith b y = true) :
    notStartsWith b (x ++ y) = true := by
  cases x with
  | nil => simpa using hy
  | cons c x => simpa [notStartsWith] using hx

theorem goodPiece_append (a b : Char) (x y : String)
    (hx : goodPiece a b x = true) (hy : goodPiece a b y = true) :
    goodPiece a b (x ++ y) = true := by
  simp only [goodPiece, Bool.and_eq_true, String.data_append] at *
  exact ⟨pairFree_append a b _ _ hx.1 hy.1 hy.2, notStartsWith_append b _ _ hx.2 hy.2⟩

theorem pairFree_tail (a b c : Char) (l : List Char)
    (h : pairFree a b (c :: l) = true) : pairFree a b l = true := by
  cases l with
  | nil => rfl
  | cons d l =>
    rw [pairFree_cons_cons, Bool.and_eq_true] at h
    exact h.2

theorem pairFree_of_append_right (a b : Char) (x y : List Char)
    (h : pairFree a b (x ++ y) = true) : pairFree a b y = true := by
  induction x with
  | nil => simpa using h
  | cons c x ih => exact ih (pairFree_tail a b c _ h)

theorem pairFree_of_append_left (a b : Char) (x y : List Char)
    (h : pairFree a b (x ++ y) = true) : pairFree a b x = true := by
  induction x with
  | nil => rfl
  | cons c x ih =>
    cases x with
    | nil => rfl
    | cons d x =>
      rw [List.cons_append, List.cons_append, pairFree_cons_cons, Bool.and_eq_true] at h
      rw [pairFree_cons_cons, Bool.and_eq_true]
      exact ⟨h.1, ih h.2⟩

/-- A text that is not pair-free does not occur inside a pair-free text. -/
theorem not_infix_of_pairFree (a b : Char) (p s : List Char)
    (hp : pairFree a b p = false) (hs : pairFree a b s = true) : ¬ p <:+: s := by
  rintro ⟨u, v, rfl⟩
  have h1 := pairFree_of_append_left a b _ _ hs
  have h2 := pairFree_of_append_right a b _ _ h1
  rw [hp] at h2
  cases h2

theorem goodPiece_intercalate_go (a b : Char) (sep : String) (hsep : goodPiece a b sep = true)
    (l : List String) (hl : ∀ e ∈ l, goodPiece a b e = true) (acc : String)
    (hacc : goodPiece a b acc = true) :
    goodPiece a b (String.intercalate.go acc sep l) = true := by
  induction l generalizing acc with
  | nil => simpa [String.intercalate.go] using hacc
  | cons e l ih =>
    simp only [String.intercalate.go]
    apply ih (fun x hx => hl x (List.mem_cons_of_mem _ hx))
    exact goodPiece_append a b _ _ (goodPiece_append a b _ _ hacc hsep)
      (hl e (List.mem_cons_self _ _))

theorem goodPiece_Join (a b : Char) (sep : String) (hsep : goodPiece a b sep = true)
    (l : List String) (hl : ∀ e ∈ l, goodPiece a b e = true) :
    goodPiece a b (Join l sep) = true := by
  unfold Join
  cases l with
  | nil => rfl
  | cons e l =>
    simp only [String.intercalate]
    exact goodPiece_intercalate_go a b sep hsep l
      (fun x hx => hl x (List.mem_cons_of_mem _ hx)) e (hl e (List.mem_cons_self _ _))

theorem toDigitsCore_digits (fuel n : Nat) (ds : List Char)
    (hds : ∀ c ∈ ds, c ∈ "0123456789".data) :
    ∀ c ∈ Nat.toDigitsCore 10 fuel n ds, c ∈ "0123456789".data := by
  induction fuel generalizing n ds with
  | zero => simpa [Nat.toDigitsCore] using hds
  | succ fuel ih =>
    have hd : (n % 10).digitChar ∈ "0123456789".data := by
      have : n % 10 < 10 := Nat.mod_lt _ (by decide)
      interval_cases (n % 10) <;> decide
    have hds2 : ∀ c ∈ (n % 10).digitChar :: ds, c ∈ "0123456789".data := by
      intro c hc
      rcases List.mem_cons.1 hc with rfl | hc
      · exact hd
      · exact hds c hc
    simp only [Nat.toDigitsCore]
    split_ifs
    · exact hds2
    · exact ih _ _ hds2

theorem fmtD_digits (n : Nat) : ∀ c ∈ (fmtD n).data, c ∈ "0123456789".data := by
  unfold fmtD Nat.repr Nat.toDigits
  simp only [List.asString]
  exact toDigitsCore_digits _ _ _ (by simp)

theorem goodPiece_of_avoid (a b : Char) (s : String)
    (h : ∀ c ∈ s.data, c ≠ b) : goodPiece a b s = true := by
  simp only [goodPiece, Bool.and_eq_true]
  constructor
  · generalize s.data = l at h
    induction l with
    | nil => rfl
    | cons x l ih =>
      cases l with
      | nil => rfl
      | cons y l =>
        rw [pairFree_cons_cons, Bool.and_eq_true]
        refine ⟨?_, ih (fun c hc => h c (List.mem_cons_of_mem _ hc))⟩
        have := h y (by simp)
        simp [this]
  · cases hd : s.data with
    | nil => rfl
    | cons x l =>
      simp only [notStartsWith, Bool.not_eq_true', beq_eq_false_iff_ne, ne_eq]
      exact h x (by simp [hd])

theorem goodPiece_fmtD (a b : Char) (hb : b ∉ "0123456789".data) (n : Nat) :
    goodPiece a b (fmtD n) = true :=
  goodPiece_of_avoid a b _ (fun c hc e => hb (e ▸ fmtD_digits n c hc))

/-! ## The count statement contains neither LIMIT nor OFFSET -/

theorem groupByFields_mem (req : AggregateRequest) (s : Locals)
    (h : buildLocals req = Except.ok s) :
    ∀ e ∈ s.groupByFields, e ∈ countPieces := by
  rw [groupByFields_eq req s h]
  intro e he
  simp only [List.mem_append] at he
  rcases he with (((he | he) | he) | he) | he <;> split_ifs at he <;>
    simp only [List.mem_cons, List.mem_singleton, List.not_mem_nil, or_false] at he <;>
    (rcases he with rfl | rfl | rfl <;> decide)

theorem dimensionJoins_mem (req : AggregateRequest) (s : Locals)
    (h : buildLocals req = Except.ok s) :
    ∀ e ∈ s.dimensionJoins, e ∈ countPieces := by
  rw [dimensionJoins_eq req s h]
  intro e he
  simp only [List.mem_append] at he
  rcases he with (he | he) | he <;> split_ifs at he <;>
    simp only [List.mem_singleton, List.not_mem_nil] at he <;>
    (subst he; decide)

theorem factTable_mem (req : AggregateRequest) (s : Locals)
    (h : buildLocals req = Except.ok s) : s.factTable ∈ countPieces := by
  rw [factTable_eq req s h]
  split_ifs <;> decide

/-- The count statement is a concatenation of good pieces, for every pair whose
second character is not a digit and for which the constant pieces are good. -/
theorem goodPiece_formatCountQuery (a b : Char) (hb : b ∉ "0123456789".data)
    (hc : ∀ e ∈ countPieces, goodPiece a b e = true)
    (req : AggregateRequest) (s : Locals) (h : buildLocals req = Except.ok s) :
    goodPiece a b (formatCountQuery s) = true := by
  have hgb := goodPiece_Join a b ", " (hc _ (by decide)) s.groupByFields
    (fun e he => hc e (groupByFields_mem req s h e he))
  have hj := goodPiece_Join a b " " (hc _ (by decide)) s.dimensionJoins
    (fun e he => hc e (dimensionJoins_mem req s h e he))
  have hft := hc _ (factTable_mem req s h)
  have hw := goodPiece_Join a b " AND " (hc _ (by decide)) s.whereClauses (by
    intro w hw
    rcases whereClauses_forms req s h w hw with ⟨m, n, rfl⟩ | ⟨c, hcm, n, rfl⟩
    · exact goodPiece_append a b _ _ (goodPiece_append a b _ _ (goodPiece_append a b _ _
        (hc _ (by decide)) (goodPiece_fmtD a b hb m)) (hc _ (by decide)))
        (goodPiece_fmtD a b hb n)
    · have hcg : goodPiece a b c = true := by
        apply hc
        simp only [List.mem_cons, List.mem_singleton, List.not_mem_nil, or_false] at hcm
        rcases hcm with rfl | rfl | rfl | rfl | rfl <;> decide
      exact goodPiece_append a b _ _ (goodPiece_append a b _ _ (goodPiece_append a b _ _
        hcg (hc _ (by decide))) (goodPiece_fmtD a b hb n)) (hc _ (by decide)))
  unfold formatCountQuery
  have c1 := hc "\n\t\tSELECT COUNT(*) FROM (" (by decide)
  have c2 := hc "\n\t\t\tSELECT " (by decide)
  have c3 := hc "\n\t\t\tFROM " (by decide)
  have c4 := hc " f" (by decide)
  have c5 := hc "\n\t\t\t" (by decide)
  have c6 := hc "\n\t\t\tWHERE " (by decide)
  have c7 := hc "\n\t\t\tGROUP BY " (by decide)
  have c8 := hc "\n\t\t) as subquery" (by decide)
  have c9 := hc "\n\t" (by decide)
  have A := goodPiece_append a b _ _ c1 c2
  have A := goodPiece_append a b _ _ A hgb
  have A := goodPiece_append a b _ _ A c3
  have A := goodPiece_append a b _ _ A hft
  have A := goodPiece_append a b _ _ A c4
  have A := goodPiece_append a b _ _ A c5
  have A := goodPiece_append a b _ _ A hj
  have A := goodPiece_append a b _ _ A c6
  have A := goodPiece_append a b _ _ A hw
  have A := goodPiece_append a b _ _ A c7
  have A := goodPiece_append a b _ _ A hgb
  have A := goodPiece_append a b _ _ A c8
  exact goodPiece_append a b _ _ A c9

/-- The count statement contains neither LIMIT nor OFFSET. -/
theorem formatCountQuery_no_pagination (req : AggregateRequest) (s : Locals)
    (h : buildLocals req = Except.ok s) :
    ¬ "LIMIT".data <:+: (formatCountQuery s).data ∧
    ¬ "OFFSET".data <:+: (formatCountQuery s).data := by
  constructor
  · have hg := goodPiece_formatCountQuery 'M' 'I' (by decide) (by decide) req s h
    simp only [goodPiece, Bool.and_eq_true] at hg
    exact not_infix_of_pairFree 'M' 'I' _ _ (by decide) hg.1
  · have hg := goodPiece_formatCountQuery 'F' 'F' (by decide) (by decide) req s h
    simp only [goodPiece, Bool.and_eq_true] at hg
    exact not_infix_of_pairFree 'F' 'F' _ _ (by decide) hg.1

/-! ## C5: count arguments and pagination arguments -/

theorem wrap64_of_inInt64 (x : Int) (h : inInt64 x) : wrap64 x = x := by
  unfold inInt64 at h
  unfold wrap64
  omega

/-- C5 fails as stated: page 2^63 - 1 with limit 1000 is accepted by the
validator and kept by the defaulting step, and the offset the handler appends
is -2000, not the integer (page - 1) * limit = 9223372036854775806000. -/
theorem offset_wraps_around :
    (validateAggregateRequest overflowRequest).1 = Except.ok () ∧
    ∃ st, AggregateTradeData overflowRequest = Outcome.statements st ∧
      st.req.Pagination.Page = 9223372036854775807 ∧ st.req.Pagination.Limit = 1000 ∧
      st.args = st.countArgs ++ [Arg.int 1000, Arg.int (-2000)] ∧
      st.offset = -2000 ∧
      st.offset ≠ (st.req.Pagination.Page - 1) * st.req.Pagination.Limit :=
  ⟨rfl, _, rfl, rfl, rfl, rfl, rfl, by decide⟩

/-- C5, amended. For every request for which the handler reaches the database,
the argument list of the data statement is the argument list of the count
statement followed by exactly the two pagination arguments limit and offset.
The offset is (page - 1) * limit computed in 64-bit int arithmetic, which is the
integer (page - 1) * limit whenever page - 1 and that product fit in an int.
The count arguments are a strict prefix; the pagination placeholders are
numbered len(filterArgs)+1 and len(filterArgs)+2; the count statement contains
neither LIMIT nor OFFSET and is formatted from the same fact table, joins,
WHERE clauses and GROUP BY list as the data statement. -/
theorem count_args_precede_pagination_args (body : AggregateRequest) (st : Statements)
    (h : AggregateTradeData body = Outcome.statements st) :
    st.args = st.countArgs ++ [Arg.int st.req.Pagination.Limit, Arg.int st.offset] ∧
    st.countArgs <+: st.args ∧ st.countArgs.length < st.args.length ∧
    st.offset = intMul (intSub st.req.Pagination.Page 1) st.req.Pagination.Limit ∧
    (inInt64 (st.req.Pagination.Page - 1) →
      inInt64 ((st.req.Pagination.Page - 1) * st.req.Pagination.Limit) →
      st.offset = (st.req.Pagination.Page - 1) * st.req.Pagination.Limit) ∧
    (∃ l, buildLocals st.req = Except.ok l ∧ st.countArgs = l.args ∧
      st.query =
        "\n\t\tSELECT " ++ Join l.selectFields ", " ++
        "\n\t\tFROM " ++ l.factTable ++ " f" ++
        "\n\t\t" ++ Join l.dimensionJoins " " ++
        "\n\t\tWHERE " ++ Join l.whereClauses " AND " ++
        "\n\t\tGROUP BY " ++ Join l.groupByFields ", " ++
        "\n\t\tORDER BY " ++ st.req.Sorting.SortBy ++ " " ++
          ToUpper st.req.Sorting.SortOrder ++
        "\n\t" ++
        (" LIMIT $" ++ fmtD (st.countArgs.length + 1) ++ " OFFSET $" ++
          fmtD (st.countArgs.length + 2)) ∧
      st.countQuery =
        "\n\t\tSELECT COUNT(*) FROM (" ++
        "\n\t\t\tSELECT " ++ Join l.groupByFields ", " ++
        "\n\t\t\tFROM " ++ l.factTable ++ " f" ++
        "\n\t\t\t" ++ Join l.dimensionJoins " " ++
        "\n\t\t\tWHERE " ++ Join l.whereClauses " AND " ++
        "\n\t\t\tGROUP BY " ++ Join l.groupByFields ", " ++
        "\n\t\t) as subquery" ++
        "\n\t") ∧
    ¬ "LIMIT".data <:+: st.countQuery.data ∧
    ¬ "OFFSET".data <:+: st.countQuery.data := by
  obtain ⟨-, l, hl, rfl⟩ := (AggregateTradeData_eq_statements body st).1 h
  have hno := formatCountQuery_no_pagination _ l hl
  refine ⟨rfl, List.prefix_append _ _, by simp, rfl, fun h1 h2 => ?_, ⟨l, hl, rfl, rfl, rfl⟩,
    hno.1, hno.2⟩
  simp only [intMul, intSub]
  rw [wrap64_of_inInt64 _ h1, wrap64_of_inInt64 _ h2]

/-- Witness for C5 amended on the sample request. -/
theorem count_args_precede_pagination_args_witness :
    AggregateTradeData sampleRequest = Outcome.statements sampleStatements ∧
    sampleStatements.args = sampleStatements.countArgs ++ [Arg.int 25, Arg.int 0] ∧
    sampleStatements.countArgs.length < sampleStatements.args.length ∧
    ¬ "LIMIT".data <:+: sampleStatements.countQuery.data :=
  have h := count_args_precede_pagination_args sampleRequest sampleStatements rfl
  ⟨rfl, h.1, h.2.2.1, h.2.2.2.2.2.2.1⟩

/-! ## C6: choice of the fact table -/

/-- C6. Whenever `BuildAggregateQuery` returns, the fact table follows the
priority policy: the product-by-port table if group_by contains product or
product_ids is non-empty; otherwise the country-by-port table if group_by
contains country or country_ids is non-empty; otherwise the product-by-port
table. Both returned statements name that table after FROM. -/
theorem fact_table_priority (req : AggregateRequest) (r : String × String × List Arg)
    (h : BuildAggregateQuery req = Except.ok r) :
    ∃ l, buildLocals req = Except.ok l ∧
      l.factTable =
        (if "product" ∈ req.GroupBy ∨ req.Filters.ProductIDs ≠ [] then
          "fact_trade_by_product_port"
        else if "country" ∈ req.GroupBy ∨ req.Filters.CountryIDs ≠ [] then
          "fact_trade_by_country_port"
        else "fact_trade_by_product_port") ∧
      r.1 =
        "\n\t\tSELECT " ++ Join l.selectFields ", " ++
        "\n\t\tFROM " ++ l.factTable ++ " f" ++
        "\n\t\t" ++ Join l.dimensionJoins " " ++
        "\n\t\tWHERE " ++ Join l.whereClauses " AND " ++
        "\n\t\tGROUP BY " ++ Join l.groupByFields ", " ++
        "\n\t\tORDER BY " ++ req.Sorting.SortBy ++ " " ++ ToUpper req.Sorting.SortOrder ++
        "\n\t" ∧
      r.2.1 =
        "\n\t\tSELECT COUNT(*) FROM (" ++
        "\n\t\t\tSELECT " ++ Join l.groupByFields ", " ++
        "\n\t\t\tFROM " ++ l.factTable ++ " f" ++
        "\n\t\t\t" ++ Join l.dimensionJoins " " ++
        "\n\t\t\tWHERE " ++ Join l.whereClauses " AND " ++
        "\n\t\t\tGROUP BY " ++ Join l.groupByFields ", " ++
        "\n\t\t) as subquery" ++
        "\n\t" := by
  obtain ⟨l, hl, rfl⟩ := (BuildAggregateQuery_eq_ok req r).1 h
  refine ⟨l, hl, ?_, rfl, rfl⟩
  rw [factTable_eq req l hl]
  simp only [needsProduct_iff, needsCountry_iff]

/-- Witness for C6: a country filter without product selects the country-by-port
table. -/
theorem fact_table_priority_witness :
    BuildAggregateQuery countryFilterRequest = Except.ok countryFilterTriple ∧
    ∃ l, buildLocals countryFilterRequest = Except.ok l ∧
      l.factTable = "fact_trade_by_country_port" :=
  have h := fact_table_priority countryFilterRequest countryFilterTriple rfl
  ⟨rfl, h.imp (fun _ hl => ⟨hl.1, hl.2.1.trans (by decide)⟩)⟩

/-! ## C7: total pages -/

theorem totalPages_eq_ceil (totalCount pageSize : Int)
    (h0 : 0 ≤ totalCount) (hmax : totalCount < 2 ^ 63) (h1 : 1 ≤ pageSize) :
    totalPages totalCount pageSize = some ⌈(totalCount : ℚ) / (pageSize : ℚ)⌉ := by
  have hp : 0 < pageSize := by omega
  have hne : pageSize ≠ 0 := by omega
  have hd : Int.tdiv totalCount pageSize = totalCount / pageSize :=
    Int.tdiv_eq_ediv h0 (by omega)
  have hm : Int.tmod totalCount pageSize = totalCount % pageSize :=
    Int.tmod_eq_emod h0 (by omega)
  have hq0 : 0 ≤ totalCount / pageSize := Int.ediv_nonneg h0 (by omega)
  have hr0 : 0 ≤ totalCount % pageSize := Int.emod_nonneg _ hne
  have hrlt : totalCount % pageSize < pageSize := Int.emod_lt_of_pos _ hp
  have hdecomp : pageSize * (totalCount / pageSize) + totalCount % pageSize = totalCount :=
    Int.ediv_add_emod totalCount pageSize
  have hqle : totalCount / pageSize ≤ totalCount := by nlinarith
  have hrle : totalCount % pageSize ≤ totalCount := by nlinarith
  have hpq : (0 : ℚ) < (pageSize : ℚ) := by exact_mod_cast hp
  have hcast : (totalCount : ℚ) =
      (pageSize : ℚ) * ((totalCount / pageSize : Int) : ℚ) + ((totalCount % pageSize : Int) : ℚ) := by
    exact_mod_cast hdecomp.symm
  unfold totalPages intDiv intMod
  rw [if_neg hne, if_neg hne, hd, hm]
  rw [wrap64_of_inInt64 _ (by unfold inInt64; omega),
    wrap64_of_inInt64 _ (by unfold inInt64; omega)]
  simp only []
  by_cases hr : totalCount % pageSize > 0
  · rw [if_pos hr]
    have hq1 : totalCount / pageSize + 1 ≤ totalCount := by nlinarith
    unfold intAdd
    rw [wrap64_of_inInt64 _ (by unfold inInt64; omega)]
    congr 1
    symm
    rw [Int.ceil_eq_iff]
    have hrq : (0 : ℚ) < ((totalCount % pageSize : Int) : ℚ) := by exact_mod_cast hr
    have hrq2 : ((totalCount % pageSize : Int) : ℚ) < (pageSize : ℚ) := by exact_mod_cast hrlt
    constructor
    · rw [lt_div_iff₀ hpq]
      push_cast
      nlinarith
    · rw [div_le_iff₀ hpq]
      push_cast
      nlinarith
  · rw [if_neg hr]
    have hr0' : totalCount % pageSize = 0 := by omega
    congr 1
    symm
    rw [Int.ceil_eq_iff]
    rw [hr0'] at hcast
    constructor
    · rw [lt_div_iff₀ hpq]
      push_cast at hcast ⊢
      nlinarith
    · rw [div_le_iff₀ hpq]
      push_cast at hcast ⊢
      nlinarith

/-- C7. For every total_count >= 0 (an int64) and every page_size >= 1, the
total_pages computed by the handler (integer quotient, plus one when the
remainder is positive) is the ceiling of total_count / page_size; total_count
101 with page_size 25 gives 5 pages. -/
theorem total_pages_is_ceiling :
    (∀ totalCount pageSize : Int, 0 ≤ totalCount → totalCount < 2 ^ 63 → 1 ≤ pageSize →
      totalPages totalCount pageSize = some ⌈(totalCount : ℚ) / (pageSize : ℚ)⌉) ∧
    totalPages 101 25 = some 5 :=
  ⟨totalPages_eq_ceil, by decide⟩

/-- Witness for C7 at total_count 101 and page_size 25. -/
theorem total_pages_is_ceiling_witness :
    (0 : Int) ≤ 101 ∧ (101 : Int) < 2 ^ 63 ∧ (1 : Int) ≤ 25 ∧
    totalPages 101 25 = some ⌈((101 : Int) : ℚ) / ((25 : Int) : ℚ)⌉ :=
  ⟨by decide, by decide, by decide,
    total_pages_is_ceiling.1 101 25 (by decide) (by decide) (by decide)⟩

/-! ## C8: the defaulting step -/

theorem setDefaults_Pagination (req : AggregateRequest) :
    (setDefaults req).Pagination =
      { Page := if req.Pagination.Page = 0 then 1 else req.Pagination.Page
        Limit := if req.Pagination.Limit = 0 then 25
          else if req.Pagination.Limit > 1000 then 1000 else req.Pagination.Limit } := by
  unfold setDefaults
  simp only []
  by_cases h1 : req.Pagination.Page = 0 <;> by_cases h2 : req.Pagination.Limit = 0 <;>
    by_cases h3 : req.Pagination.Limit > 1000 <;>
    by_cases h4 : req.Sorting.SortBy = "" <;> by_cases h5 : req.Sorting.SortOrder = "" <;>
    simp [h1, h2, h3, h4, h5]

theorem setDefaults_of_valid (req : AggregateRequest)
    (h : validateChecks req = Except.ok ()) :
    setDefaults req =
      { req with
        Pagination :=
          { Page := if req.Pagination.Page = 0 then 1 else req.Pagination.Page
            Limit := if req.Pagination.Limit = 0 then 25
              else if req.Pagination.Limit > 1000 then 1000 else req.Pagination.Limit } } := by
  have h1 := setDefaults_Pagination req
  have h2 := setDefaults_Sorting req h
  have h3 := setDefaults_GroupBy req
  have h4 := setDefaults_TradeTypes req
  have h5 := setDefaults_Filters req
  have h6 := setDefaults_DateRange req
  cases hs : setDefaults req
  rw [hs] at h1 h2 h3 h4 h5 h6
  simp only at h1 h2 h3 h4 h5 h6
  simp [h1, h2, h3, h4, h5, h6]

/-- C8. The defaulting step maps page 0 to 1, limit 0 to 25 and any limit above
1000 to 1000 (5000 becomes 1000) and leaves every other page and limit value
unchanged; it never changes date_range, trade_types, group_by or filters, and
on every request the handler lets through to the defaulting step (a validated
one) the request in effect afterwards differs from the submitted one in the
pagination values only. -/
theorem defaults_only_touch_pagination :
    (∀ req : AggregateRequest,
      (setDefaults req).Pagination.Page =
        (if req.Pagination.Page = 0 then 1 else req.Pagination.Page) ∧
      (setDefaults req).Pagination.Limit =
        (if req.Pagination.Limit = 0 then 25
          else if req.Pagination.Limit > 1000 then 1000 else req.Pagination.Limit) ∧
      (setDefaults req).DateRange = req.DateRange ∧
      (setDefaults req).TradeTypes = req.TradeTypes ∧
      (setDefaults req).GroupBy = req.GroupBy ∧
      (setDefaults req).Filters = req.Filters) ∧
    (∀ (body : AggregateRequest) (st : Statements),
      AggregateTradeData body = Outcome.statements st →
      st.req =
        { body with
          Pagination :=
            { Page := if body.Pagination.Page = 0 then 1 else body.Pagination.Page
              Limit := if body.Pagination.Limit = 0 then 25
                else if body.Pagination.Limit > 1000 then 1000
                else body.Pagination.Limit } }) ∧
    (setDefaults largeLimitRequest).Pagination = { Page := 1, Limit := 1000 } := by
  refine ⟨fun req => ?_, fun body st h => ?_, by decide⟩
  · have h1 := setDefaults_Pagination req
    refine ⟨by rw [h1], by rw [h1], setDefaults_DateRange req, setDefaults_TradeTypes req,
      setDefaults_GroupBy req, setDefaults_Filters req⟩
  · obtain ⟨hv, l, -, rfl⟩ := (AggregateTradeData_eq_statements body st).1 h
    exact setDefaults_of_valid body hv

/-- Witness for C8: limit 5000 and page 0 are replaced by 1000 and 1, nothing
else changes. -/
theorem defaults_only_touch_pagination_witness :
    AggregateTradeData largeLimitRequest =
      Outcome.statements
        { sampleStatements with
          req := { sampleRequest with Pagination := { Page := 1, Limit := 1000 } }
          args := [Arg.int 2020, Arg.int 2022, Arg.int 1000, Arg.int 0] } ∧
    ({ sampleStatements with
          req := { sampleRequest with Pagination := { Page := 1, Limit := 1000 } }
          args := [Arg.int 2020, Arg.int 2022, Arg.int 1000, Arg.int 0] } : Statements).req =
      { largeLimitRequest with Pagination := { Page := 1, Limit := 1000 } } :=
  ⟨rfl, defaults_only_touch_pagination.2.1 largeLimitRequest _ rfl⟩

/-! ## C9: omitted sorting -/

/-- C9, evaluated on the code. A request with a valid date range, group_by and
trade_types that omits sort_by and sort_order is rejected by
`validateAggregateRequest` with "invalid sort_by field: ", so the handler answers
with that error and never reaches the defaults total_value / desc that the
defaulting block would have filled in. -/
theorem omitted_sort_is_rejected :
    omittedSortRequest.Sorting = { SortBy := "", SortOrder := "" } ∧
    (omittedSortRequest.DateRange.StartYear ≠ 0 ∧ omittedSortRequest.DateRange.EndYear ≠ 0 ∧
      omittedSortRequest.DateRange.StartYear ≤ omittedSortRequest.DateRange.EndYear) ∧
    (omittedSortRequest.GroupBy ≠ [] ∧
      ∀ g ∈ omittedSortRequest.GroupBy,
        g ∈ ["year", "product", "country", "port", "trade_type"]) ∧
    (∀ t ∈ omittedSortRequest.TradeTypes, t ∈ ["Import", "Export", "Re-Export"]) ∧
    (validateAggregateRequest omittedSortRequest).1 =
      Except.error "invalid sort_by field: " ∧
    AggregateTradeData omittedSortRequest = Outcome.badRequest "invalid sort_by field: " ∧
    (setDefaults omittedSortRequest).Sorting = { SortBy := "total_value", SortOrder := "desc" } := by
  refine ⟨rfl, by decide, by decide, by decide, rfl, rfl, rfl⟩

theorem empty_sort_by_rejected (req : AggregateRequest) (h : req.Sorting.SortBy = "") :
    ∃ msg, AggregateTradeData req = Outcome.badRequest msg := by
  cases hv : validateChecks req with
  | error msg => exact ⟨msg, (AggregateTradeData_eq_badRequest req msg).2 hv⟩
  | ok u =>
    have := ((validateChecks_eq_ok req).1 hv).2.2.2.1
    rw [h] at this
    exact absurd this (by decide)

/-! ## C10: pagination bounds -/

/-- C10 fails as stated: page -1 with limit 10 is accepted by the validator,
stays -1 after the defaulting step and gives the offset -20; limit -5 is
accepted and stays -5. -/
theorem negative_pagination_is_accepted :
    (validateAggregateRequest negativePageRequest).1 = Except.ok () ∧
    (∃ st, AggregateTradeData negativePageRequest = Outcome.statements st ∧
      st.req.Pagination.Page = -1 ∧ ¬ (st.req.Pagination.Page ≥ 1) ∧
      st.offset = -20 ∧ ¬ (st.offset ≥ 0)) ∧
    (validateAggregateRequest negativeLimitRequest).1 = Except.ok () ∧
    (∃ st, AggregateTradeData negativeLimitRequest = Outcome.statements st ∧
      st.req.Pagination.Limit = -5 ∧ ¬ (1 ≤ st.req.Pagination.Limit)) := by
  refine ⟨rfl, ⟨_, rfl, rfl, by decide, rfl, by decide⟩, rfl, ⟨_, rfl, rfl, by decide⟩⟩

/-- C10, amended. After the defaulting step page and limit are non-zero and
limit is at most 1000; a submitted page >= 0 gives page >= 1; a submitted
limit >= 0 gives 1 <= limit <= 1000, so the page_size used for total_pages is at
least 1; and when both are non-negative and (page - 1) * limit fits in an int,
the offset is that product and is non-negative. The handler passes exactly
these values on. -/
theorem pagination_bounds (req : AggregateRequest) :
    (setDefaults req).Pagination.Page ≠ 0 ∧ (setDefaults req).Pagination.Limit ≠ 0 ∧
    (setDefaults req).Pagination.Limit ≤ 1000 ∧
    (0 ≤ req.Pagination.Page → 1 ≤ (setDefaults req).Pagination.Page) ∧
    (0 ≤ req.Pagination.Limit →
      1 ≤ (setDefaults req).Pagination.Limit ∧ (setDefaults req).Pagination.Limit ≤ 1000) ∧
    (0 ≤ req.Pagination.Page → 0 ≤ req.Pagination.Limit →
      ((setDefaults req).Pagination.Page - 1) * (setDefaults req).Pagination.Limit < 2 ^ 63 →
      intMul (intSub (setDefaults req).Pagination.Page 1) (setDefaults req).Pagination.Limit =
        ((setDefaults req).Pagination.Page - 1) * (setDefaults req).Pagination.Limit ∧
      0 ≤ intMul (intSub (setDefaults req).Pagination.Page 1)
        (setDefaults req).Pagination.Limit) ∧
    (∀ st, AggregateTradeData req = Outcome.statements st →
      (validateAggregateRequest req).1 = Except.ok () ∧ st.req = setDefaults req ∧
      st.offset = intMul (intSub (setDefaults req).Pagination.Page 1)
        (setDefaults req).Pagination.Limit) := by
  have hp := setDefaults_Pagination req
  have hpage : (setDefaults req).Pagination.Page =
      if req.Pagination.Page = 0 then 1 else req.Pagination.Page := by rw [hp]
  have hlim : (setDefaults req).Pagination.Limit =
      if req.Pagination.Limit = 0 then 25
        else if req.Pagination.Limit > 1000 then 1000 else req.Pagination.Limit := by rw [hp]
  refine ⟨?_, ?_, ?_, ?_, ?_, ?_, ?_⟩
  · rw [hpage]; split_ifs <;> omega
  · rw [hlim]; split_ifs <;> omega
  · rw [hlim]; split_ifs <;> omega
  · intro h0; rw [hpage]; split_ifs <;> omega
  · intro h0
    constructor <;> (rw [hlim]; split_ifs <;> omega)
  · intro h0 h1 hfit
    have hp1 : 1 ≤ (setDefaults req).Pagination.Page := by rw [hpage]; split_ifs <;> omega
    have hl1 : 1 ≤ (setDefaults req).Pagination.Limit := by rw [hlim]; split_ifs <;> omega
    have hnn : 0 ≤ ((setDefaults req).Pagination.Page - 1) *
        (setDefaults req).Pagination.Limit :=
      mul_nonneg (by omega) (by omega)
    have hle : (setDefaults req).Pagination.Page - 1 ≤
        ((setDefaults req).Pagination.Page - 1) * (setDefaults req).Pagination.Limit := by
      nlinarith
    have e : intMul (intSub (setDefaults req).Pagination.Page 1)
        (setDefaults req).Pagination.Limit =
        ((setDefaults req).Pagination.Page - 1) * (setDefaults req).Pagination.Limit := by
      have e1 : wrap64 ((setDefaults req).Pagination.Page - 1) =
          (setDefaults req).Pagination.Page - 1 :=
        wrap64_of_inInt64 _ (by unfold inInt64; omega)
      unfold intMul intSub
      rw [e1]
      exact wrap64_of_inInt64 _ (by unfold inInt64; omega)
    rw [e]
    exact ⟨rfl, hnn⟩
  · intro st h
    obtain ⟨hv, l, -, rfl⟩ := (AggregateTradeData_eq_statements req st).1 h
    exact ⟨hv, rfl, rfl⟩

/-- Witness for C10 amended: page 3 with limit 25 gives page 3, limit 25 and the
offset 50. -/
theorem pagination_bounds_witness :
    (0 : Int) ≤ pagedRequest.Pagination.Page ∧ (0 : Int) ≤ pagedRequest.Pagination.Limit ∧
    ((setDefaults pagedRequest).Pagination.Page - 1) *
      (setDefaults pagedRequest).Pagination.Limit < 2 ^ 63 ∧
    1 ≤ (setDefaults pagedRequest).Pagination.Page ∧
    (1 ≤ (setDefaults pagedRequest).Pagination.Limit ∧
      (setDefaults pagedRequest).Pagination.Limit ≤ 1000) ∧
    (intMul (intSub (setDefaults pagedRequest).Pagination.Page 1)
        (setDefaults pagedRequest).Pagination.Limit =
      ((setDefaults pagedRequest).Pagination.Page - 1) *
        (setDefaults pagedRequest).Pagination.Limit ∧
      0 ≤ intMul (intSub (setDefaults pagedRequest).Pagination.Page 1)
        (setDefaults pagedRequest).Pagination.Limit) ∧
    intMul (intSub (setDefaults pagedRequest).Pagination.Page 1)
      (setDefaults pagedRequest).Pagination.Limit = 50 :=
  have h := pagination_bounds pagedRequest
  ⟨by decide, by decide, by decide, h.2.2.2.1 (by decide), h.2.2.2.2.1 (by decide),
    h.2.2.2.2.2.1 (by decide) (by decide) (by decide), by decide⟩

/-! ## C12: placeholders and arguments -/

theorem numbered_append (k : Nat) (l m : List String) :
    numbered k (l ++ m) = numbered k l ++ numbered (k + l.length) m := by
  induction l generalizing k with
  | nil => simp [numbered]
  | cons c l ih =>
    have e : k + 1 + l.length = k + (l.length + 1) := by omega
    simp [numbered, ih, e]

theorem numbered_length (k : Nat) (l : List String) : (numbered k l).length = l.length := by
  induction l generalizing k with
  | nil => rfl
  | cons c l ih => simp [numbered, ih]

/-- One filter step keeps predicates, arguments and counter aligned. -/
theorem stepFilter_aligned (a : Bool) (c : String) (v : Arg) (s : Locals)
    (w0 : String) (a0 : List Arg) (L : List (String × Arg))
    (hw : s.whereClauses = w0 :: numbered 3 (L.map Prod.fst))
    (ha : s.args = a0 ++ L.map Prod.snd)
    (hc : s.argCount = 2 + L.length) :
    (stepFilter a c v s).whereClauses =
        w0 :: numbered 3 ((L ++ (if a then [(c, v)] else [])).map Prod.fst) ∧
      (stepFilter a c v s).args = a0 ++ (L ++ (if a then [(c, v)] else [])).map Prod.snd ∧
      (stepFilter a c v s).argCount = 2 + (L ++ (if a then [(c, v)] else [])).length := by
  rw [stepFilter_whereClauses, stepFilter_args, stepFilter_argCount, hw, ha, hc]
  cases a
  · simp
  · have e : 3 + L.length = 2 + L.length + 1 := by omega
    simp [numbered_append, numbered, e]
    omega

theorem fmtD_one : fmtD 1 = "1" := by decide

theorem fmtD_two : fmtD 2 = "2" := by decide

/-- The WHERE predicates, the arguments and the counter after all steps. -/
theorem buildLocals_aligned (req : AggregateRequest) (s : Locals)
    (h : buildLocals req = Except.ok s) :
    s.whereClauses =
        "f.year BETWEEN $1 AND $2" :: numbered 3 ((activeFilters req).map Prod.fst) ∧
      s.args = [Arg.int req.DateRange.StartYear, Arg.int req.DateRange.EndYear] ++
        (activeFilters req).map Prod.snd ∧
      s.argCount = 2 + (activeFilters req).length := by
  obtain ⟨-, rfl⟩ := (buildLocals_eq_ok req s).1 h
  have h0 : ∀ t : Locals, t.whereClauses = [] → t.args = [] → t.argCount = 0 →
      (stepDateRange req t).whereClauses = "f.year BETWEEN $1 AND $2" ::
          numbered 3 (([] : List (String × Arg)).map Prod.fst) ∧
        (stepDateRange req t).args =
          [Arg.int req.DateRange.StartYear, Arg.int req.DateRange.EndYear] ++
            ([] : List (String × Arg)).map Prod.snd ∧
        (stepDateRange req t).argCount = 2 + ([] : List (String × Arg)).length := by
    intro t h1 h2 h3
    simp only [stepDateRange, h1, h2, h3, numbered, List.map_nil, List.nil_append,
      List.append_nil, List.length_nil, fmtD_one, fmtD_two]
    exact ⟨by decide, trivial, trivial⟩
  have hinit : ∀ t : Locals, t = stepScalars req (stepPort req (stepFactTable req initLocals)) →
      t.whereClauses = [] ∧ t.args = [] ∧ t.argCount = 0 := by
    intro t ht
    subst ht
    unfold stepScalars stepPort stepFactTable initLocals
    split_ifs <;> exact ⟨rfl, rfl, rfl⟩
  obtain ⟨i1, i2, i3⟩ := hinit _ rfl
  obtain ⟨w0, a0, c0⟩ := h0 _ i1 i2 i3
  unfold stepFilters activeFilters
  have s1 := stepFilter_aligned (decide (req.TradeTypes.length > 0)) "f.trade_type"
    (Arg.strings req.TradeTypes) _ _ _ _ w0 a0 c0
  have s2 := stepFilter_aligned (decide (req.Filters.ProductIDs.length > 0)) "f.product_id"
    (Arg.int64s req.Filters.ProductIDs) _ _ _ _ s1.1 s1.2.1 s1.2.2
  have s3 := stepFilter_aligned (decide (req.Filters.CountryIDs.length > 0)) "f.country_id"
    (Arg.int64s req.Filters.CountryIDs) _ _ _ _ s2.1 s2.2.1 s2.2.2
  have s4 := stepFilter_aligned (decide (req.Filters.PortIDs.length > 0)) "f.port_id"
    (Arg.int64s req.Filters.PortIDs) _ _ _ _ s3.1 s3.2.1 s3.2.2
  have s5 := stepFilter_aligned (decide (req.Filters.PortTypes.length > 0)) "dp.port_type_en"
    (Arg.strings req.Filters.PortTypes) _ _ _ _ s4.1 s4.2.1 s4.2.2
  simpa [List.length_pos] using s5

theorem numbered_getElem? (k : Nat) (l : List String) (i : Nat) :
    (numbered k l)[i]? = l[i]?.map (fun c => c ++ " = ANY($" ++ fmtD (k + i) ++ ")") := by
  induction l generalizing k i with
  | nil => simp [numbered]
  | cons c l ih =>
    cases i with
    | zero => simp [numbered]
    | succ i =>
      have e : k + 1 + i = k + (i + 1) := by omega
      simp [numbered, ih, e]

theorem activeFilters_columns (req : AggregateRequest) :
    (activeFilters req).map Prod.fst =
      filterColumns (decide (req.TradeTypes ≠ [])) (decide (req.Filters.ProductIDs ≠ []))
        (decide (req.Filters.CountryIDs ≠ [])) (decide (req.Filters.PortIDs ≠ []))
        (decide (req.Filters.PortTypes ≠ [])) := by
  unfold activeFilters filterColumns
  simp only [List.map_append, decide_eq_true_eq]
  congr 1
  · congr 1
    · congr 1
      · congr 1
        · split_ifs <;> rfl
        · split_ifs <;> rfl
      · split_ifs <;> rfl
    · split_ifs <;> rfl
  · split_ifs <;> rfl

theorem placeholders_filterColumns : ∀ a1 a2 a3 a4 a5 : Bool,
    placeholders
      (Join ("f.year BETWEEN $1 AND $2" :: numbered 3 (filterColumns a1 a2 a3 a4 a5))
        " AND ").data =
      List.range' 1 (2 + (filterColumns a1 a2 a3 a4 a5).length) := by
  decide!

/-- C12. Whenever `BuildAggregateQuery` returns, the argument list is
[start_year, end_year] followed by one array-valued argument per non-empty
filter in the order trade_types, product_ids, country_ids, port_ids,
port_types; the WHERE predicates are the date-range predicate on $1 and $2
followed by the predicates of those filters in the same order with consecutive
placeholders from $3; the predicate carrying placeholder $k belongs to the
filter whose value is the k-th argument; and the placeholders of the WHERE text
are exactly 1, 2, ..., len(args), each once. -/
theorem placeholders_match_arguments (req : AggregateRequest)
    (r : String × String × List Arg) (h : BuildAggregateQuery req = Except.ok r) :
    ∃ l, buildLocals req = Except.ok l ∧
      r = (formatQuery req l, formatCountQuery l, l.args) ∧
      r.2.2 = [Arg.int req.DateRange.StartYear, Arg.int req.DateRange.EndYear] ++
        (activeFilters req).map Prod.snd ∧
      (∀ p ∈ activeFilters req, ∃ c, (p.2 = Arg.strings c ∧ c ≠ []) ∨
        ∃ d, p.2 = Arg.int64s d ∧ d ≠ []) ∧
      l.whereClauses =
        "f.year BETWEEN $1 AND $2" :: numbered 3 ((activeFilters req).map Prod.fst) ∧
      (∀ (i : Nat) (c : String) (v : Arg), (activeFilters req)[i]? = some (c, v) →
        l.whereClauses[i + 1]? = some (c ++ " = ANY($" ++ fmtD (i + 3) ++ ")") ∧
        r.2.2[i + 3 - 1]? = some v) ∧
      placeholders (Join l.whereClauses " AND ").data = List.range' 1 r.2.2.length := by
  obtain ⟨l, hl, rfl⟩ := (BuildAggregateQuery_eq_ok req r).1 h
  obtain ⟨hw, ha, -⟩ := buildLocals_aligned req l hl
  refine ⟨l, hl, rfl, ha, ?_, hw, ?_, ?_⟩
  · intro p hp
    unfold activeFilters at hp
    simp only [List.mem_append] at hp
    rcases hp with (((hp | hp) | hp) | hp) | hp <;> split_ifs at hp with hne <;>
      simp only [List.mem_singleton, List.not_mem_nil] at hp <;> subst hp
    · exact ⟨_, Or.inl ⟨rfl, hne⟩⟩
    · exact ⟨[], Or.inr ⟨_, rfl, hne⟩⟩
    · exact ⟨[], Or.inr ⟨_, rfl, hne⟩⟩
    · exact ⟨[], Or.inr ⟨_, rfl, hne⟩⟩
    · exact ⟨_, Or.inl ⟨rfl, hne⟩⟩
  · intro i c v hi
    simp only []
    rw [hw, ha]
    constructor
    · rw [List.getElem?_cons_succ, numbered_getElem?, List.getElem?_map, hi]
      simp [Nat.add_comm]
    · have e : i + 3 - 1 = 2 + i := by omega
      rw [e, List.getElem?_append_right (by simp)]
      simp [hi]
  · have hlen : (filterColumns (decide (req.TradeTypes ≠ []))
        (decide (req.Filters.ProductIDs ≠ [])) (decide (req.Filters.CountryIDs ≠ []))
        (decide (req.Filters.PortIDs ≠ [])) (decide (req.Filters.PortTypes ≠ []))).length =
        (activeFilters req).length := by
      rw [← activeFilters_columns, List.length_map]
    simp only []
    rw [hw, ha, activeFilters_columns, placeholders_filterColumns, hlen]
    congr 1
    simp only [List.length_append, List.length_cons, List.length_nil, List.length_map]

/-- Witness for C12 on a request with four active filters. -/
theorem placeholders_match_arguments_witness :
    BuildAggregateQuery allFiltersRequest = Except.ok allFiltersTriple ∧
    ∃ l, buildLocals allFiltersRequest = Except.ok l ∧
      allFiltersTriple.2.2 =
        [Arg.int 2019, Arg.int 2023] ++ (activeFilters allFiltersRequest).map Prod.snd ∧
      l.whereClauses =
        ["f.year BETWEEN $1 AND $2", "f.trade_type = ANY($3)", "f.product_id = ANY($4)",
          "f.port_id = ANY($5)", "dp.port_type_en = ANY($6)"] ∧
      placeholders (Join l.whereClauses " AND ").data = [1, 2, 3, 4, 5, 6] :=
  have h := placeholders_match_arguments allFiltersRequest allFiltersTriple (by decide!)
  ⟨by decide!, h.imp (fun _ hl =>
    ⟨hl.1, hl.2.2.1, hl.2.2.2.2.1.trans rfl, hl.2.2.2.2.2.2.trans rfl⟩)⟩

/-! ## C11: joins and table aliases -/

theorem whereClauses_aliases : ∀ a1 a2 a3 a4 a5 : Bool,
    ∀ e ∈ "f.year BETWEEN $1 AND $2" :: numbered 3 (filterColumns a1 a2 a3 a4 a5),
      mentionsAlias "p" e = false ∧ mentionsAlias "c" e = false ∧
      (mentionsAlias "dp" e = true → a5 = true) := by
  decide!

theorem selectFields_aliases (req : AggregateRequest) (l : Locals)
    (h : buildLocals req = Except.ok l) :
    ∀ e ∈ l.selectFields,
      (mentionsAlias "p" e = true → contains req.GroupBy "product" = true) ∧
      (mentionsAlias "c" e = true → contains req.GroupBy "country" = true) ∧
      (mentionsAlias "dp" e = true → contains req.GroupBy "port" = true) := by
  rw [selectFields_eq req l h]
  intro e he
  simp only [List.mem_append] at he
  rcases he with ((((he | he) | he) | he) | he) | he <;> (try split_ifs at he with hflag) <;>
    simp only [List.mem_cons, List.mem_singleton, List.not_mem_nil, or_false] at he <;>
    (rcases he with rfl | rfl | rfl) <;>
    refine ⟨?_, ?_, ?_⟩ <;>
    first
      | (intro _; exact hflag)
      | (intro hm; exact absurd hm (by decide))

/-- The join list without a conflict, in terms of membership in group_by and
non-emptiness of the port filters. -/
theorem dimensionJoins_eq_mem (req : AggregateRequest) (l : Locals)
    (h : buildLocals req = Except.ok l) :
    l.dimensionJoins =
      (if "product" ∈ req.GroupBy then
        ["JOIN dim_product p ON f.product_id = p.product_id"] else []) ++
      (if "country" ∈ req.GroupBy then
        ["JOIN dim_country c ON f.country_id = c.country_id"] else []) ++
      (if "port" ∈ req.GroupBy ∨ req.Filters.PortIDs ≠ [] ∨ req.Filters.PortTypes ≠ [] then
        ["JOIN dim_port dp ON f.port_id = dp.port_id"] else []) := by
  rw [dimensionJoins_eq req l h]
  have e : (contains req.GroupBy "port" || decide (req.Filters.PortTypes.length > 0)
      || decide (req.Filters.PortIDs.length > 0)) = true ↔
      ("port" ∈ req.GroupBy ∨ req.Filters.PortIDs ≠ [] ∨ req.Filters.PortTypes ≠ []) := by
    simp only [Bool.or_eq_true, contains_eq_true_iff, decide_eq_true_eq, List.length_pos]
    tauto
  simp only [contains_eq_true_iff, e]

theorem port_columns_iff (req : AggregateRequest) (l : Locals)
    (h : buildLocals req = Except.ok l) :
    ∀ col ∈ ["dp.port_id", "dp.port_name_en", "dp.port_name_ar"],
      (col ∈ l.selectFields ↔ "port" ∈ req.GroupBy) ∧
      (col ∈ l.groupByFields ↔ "port" ∈ req.GroupBy) := by
  rw [selectFields_eq req l h, groupByFields_eq req l h, ← contains_eq_true_iff]
  intro col hcol
  simp only [List.mem_cons, List.mem_singleton, List.not_mem_nil, or_false] at hcol
  cases contains req.GroupBy "product" <;> cases contains req.GroupBy "country" <;>
    cases contains req.GroupBy "port" <;> cases contains req.GroupBy "year" <;>
    cases contains req.GroupBy "trade_type" <;>
    rcases hcol with rfl | rfl | rfl <;> decide

theorem product_join_mem (req : AggregateRequest) (l : Locals)
    (h : buildLocals req = Except.ok l) (hp : "product" ∈ req.GroupBy) :
    ∃ j ∈ l.dimensionJoins, joinAlias j = "p" := by
  refine ⟨"JOIN dim_product p ON f.product_id = p.product_id", ?_, by decide⟩
  rw [dimensionJoins_eq_mem req l h]
  simp [hp]

theorem country_join_mem (req : AggregateRequest) (l : Locals)
    (h : buildLocals req = Except.ok l) (hp : "country" ∈ req.GroupBy) :
    ∃ j ∈ l.dimensionJoins, joinAlias j = "c" := by
  refine ⟨"JOIN dim_country c ON f.country_id = c.country_id", ?_, by decide⟩
  rw [dimensionJoins_eq_mem req l h]
  simp [hp]

theorem port_join_mem (req : AggregateRequest) (l : Locals)
    (h : buildLocals req = Except.ok l)
    (hp : "port" ∈ req.GroupBy ∨ req.Filters.PortIDs ≠ [] ∨ req.Filters.PortTypes ≠ []) :
    ∃ j ∈ l.dimensionJoins, joinAlias j = "dp" := by
  refine ⟨"JOIN dim_port dp ON f.port_id = dp.port_id", ?_, by decide⟩
  rw [dimensionJoins_eq_mem req l h]
  simp [hp]

theorem join_counts (req : AggregateRequest) (l : Locals)
    (h : buildLocals req = Except.ok l) :
    l.dimensionJoins.count "JOIN dim_product p ON f.product_id = p.product_id" =
        (if "product" ∈ req.GroupBy then 1 else 0) ∧
      l.dimensionJoins.count "JOIN dim_country c ON f.country_id = c.country_id" =
        (if "country" ∈ req.GroupBy then 1 else 0) ∧
      l.dimensionJoins.count "JOIN dim_port dp ON f.port_id = dp.port_id" =
        (if "port" ∈ req.GroupBy ∨ req.Filters.PortIDs ≠ [] ∨ req.Filters.PortTypes ≠ []
          then 1 else 0) := by
  rw [dimensionJoins_eq_mem req l h]
  refine ⟨?_, ?_, ?_⟩ <;> split_ifs <;> decide

/-- C11. Whenever `BuildAggregateQuery` returns, the join list holds each
dimension join at most once, whatever group_by repeats: the product join iff
product is grouped, the country join iff country is grouped, the port join iff
port is grouped or port_ids or port_types is non-empty. The three port columns
are in the select list and in the group-by list iff port is grouped. Every
alias p, c or dp referred to in a select expression or a WHERE predicate is
introduced by a join of the list. With port_types = ["Sea"] and group_by
naming port (twice) there is exactly one port join, used by the projection and
by the filter. -/
theorem joins_once_and_aliases_introduced :
    (∀ (req : AggregateRequest) (r : String × String × List Arg),
      BuildAggregateQuery req = Except.ok r →
      ∃ l, buildLocals req = Except.ok l ∧
        r = (formatQuery req l, formatCountQuery l, l.args) ∧
        l.dimensionJoins =
          (if "product" ∈ req.GroupBy then
            ["JOIN dim_product p ON f.product_id = p.product_id"] else []) ++
          (if "country" ∈ req.GroupBy then
            ["JOIN dim_country c ON f.country_id = c.country_id"] else []) ++
          (if "port" ∈ req.GroupBy ∨ req.Filters.PortIDs ≠ [] ∨ req.Filters.PortTypes ≠ []
            then ["JOIN dim_port dp ON f.port_id = dp.port_id"] else []) ∧
        l.dimensionJoins.count "JOIN dim_product p ON f.product_id = p.product_id" =
          (if "product" ∈ req.GroupBy then 1 else 0) ∧
        l.dimensionJoins.count "JOIN dim_country c ON f.country_id = c.country_id" =
          (if "country" ∈ req.GroupBy then 1 else 0) ∧
        l.dimensionJoins.count "JOIN dim_port dp ON f.port_id = dp.port_id" =
          (if "port" ∈ req.GroupBy ∨ req.Filters.PortIDs ≠ [] ∨ req.Filters.PortTypes ≠ []
            then 1 else 0) ∧
        (∀ col ∈ ["dp.port_id", "dp.port_name_en", "dp.port_name_ar"],
          (col ∈ l.selectFields ↔ "port" ∈ req.GroupBy) ∧
          (col ∈ l.groupByFields ↔ "port" ∈ req.GroupBy)) ∧
        (∀ a ∈ ["p", "c", "dp"], ∀ e ∈ l.selectFields ++ l.whereClauses,
          mentionsAlias a e = true → ∃ j ∈ l.dimensionJoins, joinAlias j = a)) ∧
    (BuildAggregateQuery seaPortRequest = Except.ok seaPortTriple ∧
      ∃ l, buildLocals seaPortRequest = Except.ok l ∧
        l.dimensionJoins = ["JOIN dim_port dp ON f.port_id = dp.port_id"] ∧
        l.selectFields =
          ["dp.port_id", "dp.port_name_en", "dp.port_name_ar", "SUM(f.value) as total_value"] ∧
        l.whereClauses = ["f.year BETWEEN $1 AND $2", "dp.port_type_en = ANY($3)"]) := by
  refine ⟨fun req r h => ?_, by decide!, _, rfl, rfl, rfl, rfl⟩
  obtain ⟨l, hl, hr⟩ := (BuildAggregateQuery_eq_ok req r).1 h
  obtain ⟨c1, c2, c3⟩ := join_counts req l hl
  refine ⟨l, hl, hr, dimensionJoins_eq_mem req l hl, c1, c2, c3, port_columns_iff req l hl, ?_⟩
  intro a ha e he hm
  simp only [List.mem_cons, List.mem_singleton, List.not_mem_nil, or_false] at ha
  rcases List.mem_append.1 he with he | he
  · obtain ⟨hp, hc, hd⟩ := selectFields_aliases req l hl e he
    rcases ha with rfl | rfl | rfl
    · exact product_join_mem req l hl ((contains_eq_true_iff _ _).1 (hp hm))
    · exact country_join_mem req l hl ((contains_eq_true_iff _ _).1 (hc hm))
    · exact port_join_mem req l hl (Or.inl ((contains_eq_true_iff _ _).1 (hd hm)))
  · rw [(buildLocals_aligned req l hl).1, activeFilters_columns] at he
    obtain ⟨hp, hc, hd⟩ := whereClauses_aliases _ _ _ _ _ e he
    rcases ha with rfl | rfl | rfl
    · rw [hp] at hm; cases hm
    · rw [hc] at hm; cases hm
    · exact port_join_mem req l hl (Or.inr (Or.inr (of_decide_eq_true (hd hm))))

/-- Witness for C11 on the request grouped by port and filtered on "Sea". -/
theorem joins_once_and_aliases_introduced_witness :
    BuildAggregateQuery seaPortRequest = Except.ok seaPortTriple ∧
    ∃ l, buildLocals seaPortRequest = Except.ok l ∧
      l.dimensionJoins.count "JOIN dim_port dp ON f.port_id = dp.port_id" = 1 ∧
      ("dp.port_id" ∈ l.selectFields ↔ "port" ∈ seaPortRequest.GroupBy) :=
  have h := joins_once_and_aliases_introduced.1 seaPortRequest seaPortTriple (by decide!)
  ⟨by decide!, h.imp (fun _ hl =>
    ⟨hl.1, hl.2.2.2.2.2.1.trans (by decide), (hl.2.2.2.2.2.2.1 "dp.port_id" (by decide)).1⟩)⟩

/-! ## C13: group-by list and sort field -/

theorem selectFields_eq_groupByFields (req : AggregateRequest) (l : Locals)
    (h : buildLocals req = Except.ok l) :
    l.selectFields = l.groupByFields ++ ["SUM(f.value) as total_value"] := by
  rw [selectFields_eq req l h, groupByFields_eq req l h]

theorem groupByFields_ne_nil (req : AggregateRequest) (l : Locals)
    (hv : validateChecks req = Except.ok ()) (h : buildLocals req = Except.ok l) :
    l.groupByFields ≠ [] := by
  obtain ⟨-, ⟨hne, hall⟩, -⟩ := (validateChecks_eq_ok req).1 hv
  obtain ⟨g, rest, hg⟩ := List.exists_cons_of_ne_nil hne
  have hmem : g ∈ req.GroupBy := by rw [hg]; exact List.mem_cons_self _ _
  have hdim := hall g hmem
  rw [groupByFields_eq req l h]
  simp only [List.mem_cons, List.mem_singleton, List.not_mem_nil, or_false] at hdim
  rcases hdim with rfl | rfl | rfl | rfl | rfl <;>
    simp [(contains_eq_true_iff _ _).2 hmem]

theorem outputNames_eq (req : AggregateRequest) (l : Locals)
    (h : buildLocals req = Except.ok l) :
    l.selectFields.map outputName =
      (if "product" ∈ req.GroupBy then
        ["product_id", "product_desc_en", "product_desc_ar"] else []) ++
      (if "country" ∈ req.GroupBy then
        ["country_id", "country_name_en", "country_name_ar"] else []) ++
      (if "port" ∈ req.GroupBy then ["port_id", "port_name_en", "port_name_ar"] else []) ++
      (if "year" ∈ req.GroupBy then ["year"] else []) ++
      (if "trade_type" ∈ req.GroupBy then ["trade_type"] else []) ++
      ["total_value"] := by
  rw [selectFields_eq req l h]
  simp only [← contains_eq_true_iff]
  cases contains req.GroupBy "product" <;> cases contains req.GroupBy "country" <;>
    cases contains req.GroupBy "port" <;> cases contains req.GroupBy "year" <;>
    cases contains req.GroupBy "trade_type" <;> decide

theorem sort_projected_iff (req : AggregateRequest) (l : Locals)
    (hv : validateChecks req = Except.ok ()) (h : buildLocals req = Except.ok l) :
    req.Sorting.SortBy ∈ l.selectFields.map outputName ↔
      (req.Sorting.SortBy = "total_value" ∨
        (req.Sorting.SortBy = "year" ∧ "year" ∈ req.GroupBy) ∨
        (req.Sorting.SortBy = "trade_type" ∧ "trade_type" ∈ req.GroupBy) ∨
        (req.Sorting.SortBy = "product_desc_en" ∧ "product" ∈ req.GroupBy) ∨
        (req.Sorting.SortBy = "country_name_en" ∧ "country" ∈ req.GroupBy) ∨
        (req.Sorting.SortBy = "port_name_en" ∧ "port" ∈ req.GroupBy)) := by
  obtain ⟨-, -, -, hsb, -⟩ := (validateChecks_eq_ok req).1 hv
  rw [outputNames_eq req l h]
  simp only [← contains_eq_true_iff]
  simp only [List.mem_cons, List.mem_singleton, List.not_mem_nil, or_false] at hsb
  cases contains req.GroupBy "product" <;> cases contains req.GroupBy "country" <;>
    cases contains req.GroupBy "port" <;> cases contains req.GroupBy "year" <;>
    cases contains req.GroupBy "trade_type" <;>
    rcases hsb with e | e | e | e | e | e <;> rw [e] <;> decide

/-- C13 fails as stated: the request grouped by year only and sorted by
product_desc_en is accepted by the validator, the builder returns for it, and
the data statement orders by product_desc_en although product is not in
group_by and no projected column has that name. -/
theorem sort_field_not_projected :
    (validateAggregateRequest sortMismatchRequest).1 = Except.ok () ∧
    AggregateTradeData sortMismatchRequest = Outcome.statements sortMismatchStatements ∧
    (∃ l, buildLocals sortMismatchRequest = Except.ok l ∧
      l.selectFields = ["f.year", "SUM(f.value) as total_value"] ∧
      sortMismatchRequest.Sorting.SortBy ∉ l.selectFields.map outputName) ∧
    ¬ (sortMismatchRequest.Sorting.SortBy = "total_value" ∨
      (sortMismatchRequest.Sorting.SortBy = "year" ∧ "year" ∈ sortMismatchRequest.GroupBy) ∨
      (sortMismatchRequest.Sorting.SortBy = "trade_type" ∧
        "trade_type" ∈ sortMismatchRequest.GroupBy) ∨
      (sortMismatchRequest.Sorting.SortBy = "product_desc_en" ∧
        "product" ∈ sortMismatchRequest.GroupBy) ∨
      (sortMismatchRequest.Sorting.SortBy = "country_name_en" ∧
        "country" ∈ sortMismatchRequest.GroupBy) ∨
      (sortMismatchRequest.Sorting.SortBy = "port_name_en" ∧
        "port" ∈ sortMismatchRequest.GroupBy)) := by
  refine ⟨rfl, rfl, ⟨_, rfl, rfl, by decide⟩, by decide⟩

/-- C13, amended. For every request accepted by `validateAggregateRequest` on
which `BuildAggregateQuery` returns, the group-by list is non-empty and equals
the select list without its final SUM(f.value) aggregate, and the field
interpolated after ORDER BY is one of the six allow-listed names; it names a
column the statement projects if and only if it is total_value, or it is year,
trade_type, product_desc_en, country_name_en or port_name_en and the
corresponding dimension is in group_by. -/
theorem group_by_and_sort_field (req : AggregateRequest) (r : String × String × List Arg)
    (hv : (validateAggregateRequest req).1 = Except.ok ())
    (h : BuildAggregateQuery req = Except.ok r) :
    ∃ l, buildLocals req = Except.ok l ∧
      r = (formatQuery req l, formatCountQuery l, l.args) ∧
      l.groupByFields ≠ [] ∧
      l.selectFields = l.groupByFields ++ ["SUM(f.value) as total_value"] ∧
      req.Sorting.SortBy ∈ ["total_value", "year", "product_desc_en", "country_name_en",
        "port_name_en", "trade_type"] ∧
      (req.Sorting.SortBy ∈ l.selectFields.map outputName ↔
        (req.Sorting.SortBy = "total_value" ∨
          (req.Sorting.SortBy = "year" ∧ "year" ∈ req.GroupBy) ∨
          (req.Sorting.SortBy = "trade_type" ∧ "trade_type" ∈ req.GroupBy) ∨
          (req.Sorting.SortBy = "product_desc_en" ∧ "product" ∈ req.GroupBy) ∨
          (req.Sorting.SortBy = "country_name_en" ∧ "country" ∈ req.GroupBy) ∨
          (req.Sorting.SortBy = "port_name_en" ∧ "port" ∈ req.GroupBy))) := by
  obtain ⟨l, hl, hr⟩ := (BuildAggregateQuery_eq_ok req r).1 h
  exact ⟨l, hl, hr, groupByFields_ne_nil req l hv hl, selectFields_eq_groupByFields req l hl,
    ((validateChecks_eq_ok req).1 hv).2.2.2.1, sort_projected_iff req l hv hl⟩

/-- Witness for C13 amended on the sample request, sorted by total_value. -/
theorem group_by_and_sort_field_witness :
    (validateAggregateRequest sampleRequest).1 = Except.ok () ∧
    BuildAggregateQuery sampleRequest = Except.ok sampleTriple ∧
    ∃ l, buildLocals sampleRequest = Except.ok l ∧
      l.groupByFields ≠ [] ∧
      l.selectFields = l.groupByFields ++ ["SUM(f.value) as total_value"] ∧
      sampleRequest.Sorting.SortBy ∈ l.selectFields.map outputName :=
  have h := group_by_and_sort_field sampleRequest sampleTriple rfl rfl
  ⟨rfl, rfl, h.imp (fun _ hl =>
    ⟨hl.1, hl.2.2.1, hl.2.2.2.1, hl.2.2.2.2.2.2 (Or.inl rfl)⟩)⟩

end TradeApi
